import Mathlib

/-!
Verification of the terraform-provider-permit lifecycle controllers.

Shallow embedding of `internal/provider`:
each Terraform resource operation (Create/Read/Update/Delete/ImportState)
is a Lean function from a client oracle and the parsed plan/prior state to
an outcome (state written, error diagnostic, or Go runtime panic) together
with the chronological list of remote API calls it issued.  The embedding
starts at the point where the framework has already decoded the plan/state
into the resource model, exactly as the Go code receives it.

Terraform framework values (`types.String`, `types.Set`) are modelled with
their three-valued null/unknown/value semantics; `ValueString` returns ""
on null and unknown, as in terraform-plugin-framework.
-/

/-- Terraform framework `types.String`: null, unknown, or a known value. -/
inductive TFString
  | null
  | unknown
  | value (s : String)
deriving DecidableEq, Repr

/-- Go `types.String.ValueString()`: the value, or "" for null/unknown. -/
def TFString.valueString : TFString → String
  | .value s => s
  | _ => ""

/-- Go `types.String.IsNull()`. -/
def TFString.isNull : TFString → Bool
  | .null => true
  | _ => false

/-- Go `types.String.IsUnknown()`. -/
def TFString.isUnknown : TFString → Bool
  | .unknown => true
  | _ => false

/-- Terraform framework `types.Set` of strings; the Go zero value of
`types.Set` is the null set. -/
inductive TFSet
  | null
  | unknown
  | value (elems : List String)
deriving DecidableEq, Repr

/-- One error diagnostic, as produced by `resp.Diagnostics.AddError`. -/
structure Diag where
  summary : String
  detail : String
deriving DecidableEq, Repr

/-- Result of one lifecycle operation: the state written on success, a
single error diagnostic with no state written, or a Go runtime panic
(nil-pointer dereference) with no state written. -/
inductive Outcome (α : Type)
  | ok (a : α)
  | err (d : Diag)
  | goPanic
deriving DecidableEq, Repr

/- ===== Permit API response models (permit-golang pkg/models) ===== -/

/-- `models.ProjectRead`; `Description` is an optional pointer. -/
structure ProjectRead where
  id : String
  organizationId : String
  key : String
  name : String
  description : Option String
deriving DecidableEq, Repr

/-- `models.EnvironmentRead`. -/
structure EnvironmentRead where
  id : String
  organizationId : String
  projectId : String
  key : String
  name : String
  description : Option String
deriving DecidableEq, Repr

/-- `models.TenantRead`. -/
structure TenantRead where
  id : String
  organizationId : String
  projectId : String
  environmentId : String
  key : String
  name : String
  description : Option String
deriving DecidableEq, Repr

/-- Generated nil-safe getter `TenantRead.GetDescription`: returns "" when
the description pointer is nil. -/
def TenantRead.getDescription (t : TenantRead) : String :=
  t.description.getD ""

/-- `models.ResourceRead`. -/
structure ResourceRead where
  id : String
  organizationId : String
  projectId : String
  environmentId : String
  key : String
  name : String
  description : Option String
deriving DecidableEq, Repr

/-- `models.ResourceActionRead`. -/
structure ResourceActionRead where
  id : String
  organizationId : String
  projectId : String
  environmentId : String
  resourceId : String
  key : String
  name : String
  description : Option String
deriving DecidableEq, Repr

/-- `models.RoleRead`; `Permissions` is a string slice. -/
structure RoleRead where
  id : String
  organizationId : String
  projectId : String
  environmentId : String
  key : String
  name : String
  description : Option String
  permissions : List String
deriving DecidableEq, Repr

/- ===== Permit API request DTOs ===== -/

/-- `models.ProjectCreate`: key and name set by the constructor,
description only via `SetDescription`. -/
structure ProjectCreate where
  key : String
  name : String
  description : Option String
deriving DecidableEq, Repr

/-- `models.ProjectUpdate`: all fields optional, set via setters. -/
structure ProjectUpdate where
  name : Option String
  description : Option String
deriving DecidableEq, Repr

/-- `models.EnvironmentCreate`. -/
structure EnvironmentCreate where
  key : String
  name : String
  description : Option String
deriving DecidableEq, Repr

/-- `models.EnvironmentUpdate`. -/
structure EnvironmentUpdate where
  name : Option String
  description : Option String
deriving DecidableEq, Repr

/-- `models.TenantCreate`. -/
structure TenantCreate where
  key : String
  name : String
  description : Option String
deriving DecidableEq, Repr

/-- `models.TenantUpdate`. -/
structure TenantUpdate where
  name : Option String
  description : Option String
deriving DecidableEq, Repr

/-- `models.ResourceCreate`: the constructor also takes the actions map
(passed as an empty map by the provider); modelled by its list of keys. -/
structure ResourceCreate where
  key : String
  name : String
  actions : List String
  description : Option String
deriving DecidableEq, Repr

/-- `models.ResourceUpdate`. -/
structure ResourceUpdate where
  name : Option String
  description : Option String
deriving DecidableEq, Repr

/-- `models.ResourceActionCreate`. -/
structure ResourceActionCreate where
  key : String
  name : String
  description : Option String
deriving DecidableEq, Repr

/-- `models.ResourceActionUpdate`. -/
structure ResourceActionUpdate where
  name : Option String
  description : Option String
deriving DecidableEq, Repr

/-- `models.RoleCreate`: key/name from the constructor, description and
permissions via setters. -/
structure RoleCreate where
  key : String
  name : String
  description : Option String
  permissions : Option (List String)
deriving DecidableEq, Repr

/-- `models.RoleUpdate`: all fields optional; the provider never calls
`SetPermissions` on it. -/
structure RoleUpdate where
  name : Option String
  description : Option String
  permissions : Option (List String)
deriving DecidableEq, Repr

/- ===== Remote calls ===== -/

/-- One remote interaction issued through the shared permit client.
Calls that the SDK scopes by the previously set context record the
(projectId, environmentId) context active at call time. -/
inductive ApiCall
  | setContext (projectId environmentId : String)
  | projectsGet (key : String)
  | projectsCreate (dto : ProjectCreate)
  | projectsUpdate (key : String) (dto : ProjectUpdate)
  | projectsDelete (key : String)
  | environmentsGet (ctxProjectId key : String)
  | environmentsCreate (ctxProjectId : String) (dto : EnvironmentCreate)
  | environmentsUpdate (ctxProjectId key : String) (dto : EnvironmentUpdate)
  | environmentsDelete (ctxProjectId key : String)
  | tenantsGet (ctxProjectId ctxEnvironmentId key : String)
  | tenantsCreate (ctxProjectId ctxEnvironmentId : String) (dto : TenantCreate)
  | tenantsUpdate (ctxProjectId ctxEnvironmentId key : String) (dto : TenantUpdate)
  | tenantsDelete (ctxProjectId ctxEnvironmentId key : String)
  | resourcesGet (ctxProjectId ctxEnvironmentId key : String)
  | resourcesCreate (ctxProjectId ctxEnvironmentId : String) (dto : ResourceCreate)
  | resourcesUpdate (ctxProjectId ctxEnvironmentId key : String) (dto : ResourceUpdate)
  | resourcesDelete (ctxProjectId ctxEnvironmentId key : String)
  | resourceActionsGet (ctxProjectId ctxEnvironmentId resourceId key : String)
  | resourceActionsCreate (ctxProjectId ctxEnvironmentId resourceId : String) (dto : ResourceActionCreate)
  | resourceActionsUpdate (ctxProjectId ctxEnvironmentId resourceId key : String) (dto : ResourceActionUpdate)
  | resourceActionsDelete (ctxProjectId ctxEnvironmentId resourceId key : String)
  | rolesGet (ctxProjectId ctxEnvironmentId key : String)
  | rolesCreate (ctxProjectId ctxEnvironmentId : String) (dto : RoleCreate)
  | rolesUpdate (ctxProjectId ctxEnvironmentId key : String) (dto : RoleUpdate)
  | rolesDelete (ctxProjectId ctxEnvironmentId key : String)
deriving DecidableEq, Repr

/-- Oracle for the external permit client (`permit.Client.Api`): what each
remote endpoint answers, as a function of the context in effect and the
call arguments.  `Except.error` carries the client error message. -/
structure Client where
  projectsGet : String → Except String ProjectRead
  projectsCreate : ProjectCreate → Except String ProjectRead
  projectsUpdate : String → ProjectUpdate → Except String ProjectRead
  projectsDelete : String → Except String Unit
  environmentsGet : String → String → Except String EnvironmentRead
  environmentsCreate : String → EnvironmentCreate → Except String EnvironmentRead
  environmentsUpdate : String → String → EnvironmentUpdate → Except String EnvironmentRead
  environmentsDelete : String → String → Except String Unit
  tenantsGet : String → String → String → Except String TenantRead
  tenantsCreate : String → String → TenantCreate → Except String TenantRead
  tenantsUpdate : String → String → String → TenantUpdate → Except String TenantRead
  tenantsDelete : String → String → String → Except String Unit
  resourcesGet : String → String → String → Except String ResourceRead
  resourcesCreate : String → String → ResourceCreate → Except String ResourceRead
  resourcesUpdate : String → String → String → ResourceUpdate → Except String ResourceRead
  resourcesDelete : String → String → String → Except String Unit
  resourceActionsGet : String → String → String → String → Except String ResourceActionRead
  resourceActionsCreate : String → String → String → ResourceActionCreate → Except String ResourceActionRead
  resourceActionsUpdate : String → String → String → String → ResourceActionUpdate → Except String ResourceActionRead
  resourceActionsDelete : String → String → String → String → Except String Unit
  rolesGet : String → String → String → Except String RoleRead
  rolesCreate : String → String → RoleCreate → Except String RoleRead
  rolesUpdate : String → String → String → RoleUpdate → Except String RoleRead
  rolesDelete : String → String → String → Except String Unit

/-- Result of a lifecycle operation: outcome plus the remote calls made. -/
structure OpResult (α : Type) where
  outcome : Outcome α
  calls : List ApiCall
deriving DecidableEq, Repr

/-- Result of an `ImportState` call: diagnostics added, attributes written
into state (path, value), and the remote calls made. -/
structure ImportResult where
  diags : List Diag
  attrs : List (String × String)
  calls : List ApiCall
deriving DecidableEq, Repr

/- ===== Resource models (Terraform side) ===== -/

/-- `environmentResourceModel`. -/
structure EnvironmentModel where
  id : TFString
  organizationId : TFString
  projectId : TFString
  key : TFString
  name : TFString
  description : TFString
deriving DecidableEq, Repr

/-- `projectResourceModel`. -/
structure ProjectModel where
  key : TFString
  id : TFString
  organizationId : TFString
  name : TFString
  description : TFString
deriving DecidableEq, Repr

/-- `tenantResourceModel`. -/
structure TenantModel where
  id : TFString
  organizationId : TFString
  projectId : TFString
  environmentId : TFString
  key : TFString
  name : TFString
  description : TFString
deriving DecidableEq, Repr

/-- `resourceResourceModel`. -/
structure ResourceModel where
  id : TFString
  organizationId : TFString
  projectId : TFString
  environmentId : TFString
  key : TFString
  name : TFString
  description : TFString
deriving DecidableEq, Repr

/-- `resourceActionResourceModel`. -/
structure ResourceActionModel where
  id : TFString
  organizationId : TFString
  projectId : TFString
  environmentId : TFString
  resourceId : TFString
  key : TFString
  name : TFString
  description : TFString
deriving DecidableEq, Repr

/-- `roleResourceModel`. -/
structure RoleModel where
  id : TFString
  organizationId : TFString
  projectId : TFString
  environmentId : TFString
  key : TFString
  name : TFString
  description : TFString
  permissions : TFSet
deriving DecidableEq, Repr

/-- Go `strings.Split(s, "/")`: splits on every `/`, keeping empty
segments; `""` yields `[""]`.  (Defined by structural recursion over the
characters so that concrete imports evaluate by `decide`/`rfl`.) -/
def splitSlash (s : String) : List String :=
  (s.data.foldr
    (fun ch acc =>
      match acc with
      | cur :: rest => if ch = '/' then [] :: cur :: rest else (ch :: cur) :: rest
      | [] => [[ch]])
    [[]]).map (fun cs => ⟨cs⟩)

/- ===== environmentResource (internal/provider/provider.go, second unit) ===== -/

namespace environmentResource

/-- Lines 264-275 of the environment unit: `models.NewEnvironmentCreate`
plus the conditional `SetDescription` on a non-empty planned value. -/
def createRequest (plan : EnvironmentModel) : EnvironmentCreate :=
  let environmentKey := plan.key.valueString
  let environmentName := plan.name.valueString
  let environmentDescription := plan.description.valueString
  { key := environmentKey
    name := environmentName
    description := if environmentDescription ≠ "" then some environmentDescription else none }

/-- `environmentResource.Create`. -/
def Create (c : Client) (plan : EnvironmentModel) : OpResult EnvironmentModel :=
  let projectId := plan.projectId.valueString
  let newEnvironment := createRequest plan
  let calls := [ApiCall.setContext projectId "", ApiCall.environmentsCreate projectId newEnvironment]
  match c.environmentsCreate projectId newEnvironment with
  | .error e => { outcome := .err ⟨"Unable to create environment", e⟩, calls := calls }
  | .ok environment =>
    match environment.description with
    | none => { outcome := .goPanic, calls := calls }
    | some d =>
      { outcome := .ok
          { id := .value environment.id
            organizationId := .value environment.organizationId
            projectId := .value environment.projectId
            key := .value environment.key
            name := .value environment.name
            description := .value d }
        calls := calls }

/-- `environmentResource.Read`. -/
def Read (c : Client) (state : EnvironmentModel) : OpResult EnvironmentModel :=
  let projectId := state.projectId.valueString
  let environmentKey := state.key.valueString
  let calls := [ApiCall.setContext projectId "", ApiCall.environmentsGet projectId environmentKey]
  match c.environmentsGet projectId environmentKey with
  | .error e => { outcome := .err ⟨"Unable to read environment", e⟩, calls := calls }
  | .ok environment =>
    match environment.description with
    | none => { outcome := .goPanic, calls := calls }
    | some d =>
      { outcome := .ok
          { id := .value environment.id
            organizationId := .value environment.organizationId
            projectId := .value environment.projectId
            key := .value environment.key
            name := .value environment.name
            description := .value d }
        calls := calls }

/-- Lines 385-398 of the environment unit: `models.NewEnvironmentUpdate`,
`SetName`, conditional `SetDescription`. -/
def updateRequest (plan : EnvironmentModel) : EnvironmentUpdate :=
  let environmentName := plan.name.valueString
  let environmentDescription := plan.description.valueString
  { name := some environmentName
    description := if environmentDescription ≠ "" then some environmentDescription else none }

/-- `environmentResource.Update`. -/
def Update (c : Client) (plan : EnvironmentModel) : OpResult EnvironmentModel :=
  let projectId := plan.projectId.valueString
  let environmentKey := plan.key.valueString
  let updateEnvironment := updateRequest plan
  let calls := [ApiCall.setContext projectId "", ApiCall.environmentsUpdate projectId environmentKey updateEnvironment]
  match c.environmentsUpdate projectId environmentKey updateEnvironment with
  | .error e => { outcome := .err ⟨"Unable to update environment", e⟩, calls := calls }
  | .ok environment =>
    match environment.description with
    | none => { outcome := .goPanic, calls := calls }
    | some d =>
      { outcome := .ok
          { id := .value environment.id
            organizationId := .value environment.organizationId
            projectId := .value environment.projectId
            key := .value environment.key
            name := .value environment.name
            description := .value d }
        calls := calls }

/-- `environmentResource.Delete`. -/
def Delete (c : Client) (state : EnvironmentModel) : OpResult Unit :=
  let projectId := state.projectId.valueString
  let environmentKey := state.key.valueString
  let calls := [ApiCall.setContext projectId "", ApiCall.environmentsDelete projectId environmentKey]
  match c.environmentsDelete projectId environmentKey with
  | .error e => { outcome := .err ⟨"Unable to delete environment", e⟩, calls := calls }
  | .ok _ => { outcome := .ok (), calls := calls }

/-- `environmentResource.ImportState`: splits the composite ID on `/`,
requires exactly 2 segments, resolves the project key, then writes
`project_id` and `key`. -/
def ImportState (c : Client) (reqID : String) : ImportResult :=
  match splitSlash reqID with
  | [projectKey, environmentKey] =>
    (match c.projectsGet projectKey with
     | .error e =>
       { diags := [⟨"Unable to read project", e⟩], attrs := [], calls := [.projectsGet projectKey] }
     | .ok project =>
       { diags := []
         attrs := [("project_id", project.id), ("key", environmentKey)]
         calls := [.projectsGet projectKey] })
  | _ =>
    { diags := [⟨"Error importing environment",
        "Could not import environment, ID should be an \x7bprojectId\x7d/\x7benvironmentKey\x7d"⟩]
      attrs := []
      calls := [] }

end environmentResource

/- ===== projectResource (internal/provider/resource_project.go) ===== -/

namespace projectResource

/-- Lines 104-117 of resource_project.go: `models.NewProjectCreate` plus
conditional `SetDescription`. -/
def createRequest (plan : ProjectModel) : ProjectCreate :=
  let projectKey := plan.key.valueString
  let projectName := plan.name.valueString
  let description := plan.description.valueString
  { key := projectKey
    name := projectName
    description := if description ≠ "" then some description else none }

/-- `projectResource.Create` (resource_project.go). -/
def Create (c : Client) (plan : ProjectModel) : OpResult ProjectModel :=
  let newProject := createRequest plan
  let calls := [ApiCall.projectsCreate newProject]
  match c.projectsCreate newProject with
  | .error e => { outcome := .err ⟨"Unable to Create Project", e⟩, calls := calls }
  | .ok project =>
    match project.description with
    | none => { outcome := .goPanic, calls := calls }
    | some d =>
      { outcome := .ok
          { key := .value project.key
            id := .value project.id
            organizationId := .value project.organizationId
            name := .value project.name
            description := .value d }
        calls := calls }

/-- `projectResource.Read` (resource_project.go lines 147-167): the body is
scaffold — the client call is commented out; it re-saves the prior state
and performs no remote call. -/
def Read (_c : Client) (state : ProjectModel) : OpResult ProjectModel :=
  { outcome := .ok state, calls := [] }

/-- `projectResource.Update` (resource_project.go lines 169-189): scaffold;
saves the plan as state, no remote call. -/
def Update (_c : Client) (plan : ProjectModel) : OpResult ProjectModel :=
  { outcome := .ok plan, calls := [] }

/-- `projectResource.Delete` (resource_project.go). -/
def Delete (c : Client) (state : ProjectModel) : OpResult Unit :=
  let calls := [ApiCall.projectsDelete state.key.valueString]
  match c.projectsDelete state.key.valueString with
  | .error e => { outcome := .err ⟨"Unable to Delete Project", e⟩, calls := calls }
  | .ok _ => { outcome := .ok (), calls := calls }

end projectResource

/- ===== projectResource, full variant (src/unnamed/part_000, second unit) ===== -/

namespace projectResourceAlt

/-- The complete projectResource implementation shipped alongside the
tenant unit; request construction mirrors the other kinds. -/
def createRequest (plan : ProjectModel) : ProjectCreate :=
  let projectKey := plan.key.valueString
  let projectName := plan.name.valueString
  let projectDescription := plan.description.valueString
  { key := projectKey
    name := projectName
    description := if projectDescription ≠ "" then some projectDescription else none }

/-- `projectResource.Create` (full variant). -/
def Create (c : Client) (plan : ProjectModel) : OpResult ProjectModel :=
  let newProject := createRequest plan
  let calls := [ApiCall.projectsCreate newProject]
  match c.projectsCreate newProject with
  | .error e => { outcome := .err ⟨"Unable to create project", e⟩, calls := calls }
  | .ok project =>
    match project.description with
    | none => { outcome := .goPanic, calls := calls }
    | some d =>
      { outcome := .ok
          { key := .value project.key
            id := .value project.id
            organizationId := .value project.organizationId
            name := .value project.name
            description := .value d }
        calls := calls }

/-- `projectResource.Read` (full variant): fetches by key and overwrites
state with the mapped response. -/
def Read (c : Client) (state : ProjectModel) : OpResult ProjectModel :=
  let projectKey := state.key.valueString
  let calls := [ApiCall.projectsGet projectKey]
  match c.projectsGet projectKey with
  | .error e => { outcome := .err ⟨"Unable to read project", e⟩, calls := calls }
  | .ok project =>
    match project.description with
    | none => { outcome := .goPanic, calls := calls }
    | some d =>
      { outcome := .ok
          { key := .value project.key
            id := .value project.id
            organizationId := .value project.organizationId
            name := .value project.name
            description := .value d }
        calls := calls }

/-- `models.NewProjectUpdate`, `SetName`, conditional `SetDescription`. -/
def updateRequest (plan : ProjectModel) : ProjectUpdate :=
  let projectName := plan.name.valueString
  let projectDescription := plan.description.valueString
  { name := some projectName
    description := if projectDescription ≠ "" then some projectDescription else none }

/-- `projectResource.Update` (full variant). -/
def Update (c : Client) (plan : ProjectModel) : OpResult ProjectModel :=
  let projectKey := plan.key.valueString
  let updateProject := updateRequest plan
  let calls := [ApiCall.projectsUpdate projectKey updateProject]
  match c.projectsUpdate projectKey updateProject with
  | .error e => { outcome := .err ⟨"Unable to update project", e⟩, calls := calls }
  | .ok project =>
    match project.description with
    | none => { outcome := .goPanic, calls := calls }
    | some d =>
      { outcome := .ok
          { key := .value project.key
            id := .value project.id
            organizationId := .value project.organizationId
            name := .value project.name
            description := .value d }
        calls := calls }

/-- `projectResource.Delete` (full variant). -/
def Delete (c : Client) (state : ProjectModel) : OpResult Unit :=
  let projectKey := state.key.valueString
  let calls := [ApiCall.projectsDelete projectKey]
  match c.projectsDelete projectKey with
  | .error e => { outcome := .err ⟨"Unable to delete project", e⟩, calls := calls }
  | .ok _ => { outcome := .ok (), calls := calls }

end projectResourceAlt

/- ===== tenantResource (src/unnamed/part_000, first unit) ===== -/

namespace tenantResource

/-- `models.NewTenantCreate` plus conditional `SetDescription`. -/
def createRequest (plan : TenantModel) : TenantCreate :=
  let tenantKey := plan.key.valueString
  let tenantName := plan.name.valueString
  let tenantDescription := plan.description.valueString
  { key := tenantKey
    name := tenantName
    description := if tenantDescription ≠ "" then some tenantDescription else none }

/-- `tenantResource.Create`: maps the response with a direct
`*tenant.Description` dereference. -/
def Create (c : Client) (plan : TenantModel) : OpResult TenantModel :=
  let projectId := plan.projectId.valueString
  let environmentId := plan.environmentId.valueString
  let newTenant := createRequest plan
  let calls := [ApiCall.setContext projectId environmentId,
                ApiCall.tenantsCreate projectId environmentId newTenant]
  match c.tenantsCreate projectId environmentId newTenant with
  | .error e => { outcome := .err ⟨"Unable to create tenant", e⟩, calls := calls }
  | .ok tenant =>
    match tenant.description with
    | none => { outcome := .goPanic, calls := calls }
    | some d =>
      { outcome := .ok
          { id := .value tenant.id
            organizationId := .value tenant.organizationId
            projectId := .value tenant.projectId
            environmentId := .value tenant.environmentId
            key := .value tenant.key
            name := .value tenant.name
            description := .value d }
        calls := calls }

/-- `tenantResource.Read`: maps the response through the generated nil-safe
getters (`tenant.GetDescription()` and friends). -/
def Read (c : Client) (state : TenantModel) : OpResult TenantModel :=
  let projectId := state.projectId.valueString
  let environmentId := state.environmentId.valueString
  let tenantKey := state.key.valueString
  let calls := [ApiCall.setContext projectId environmentId,
                ApiCall.tenantsGet projectId environmentId tenantKey]
  match c.tenantsGet projectId environmentId tenantKey with
  | .error e => { outcome := .err ⟨"Unable to read tenant", e⟩, calls := calls }
  | .ok tenant =>
    { outcome := .ok
        { id := .value tenant.id
          organizationId := .value tenant.organizationId
          projectId := .value tenant.projectId
          environmentId := .value tenant.environmentId
          key := .value tenant.key
          name := .value tenant.name
          description := .value tenant.getDescription }
      calls := calls }

/-- `models.NewTenantUpdate`, `SetName`, conditional `SetDescription`. -/
def updateRequest (plan : TenantModel) : TenantUpdate :=
  let tenantName := plan.name.valueString
  let tenantDescription := plan.description.valueString
  { name := some tenantName
    description := if tenantDescription ≠ "" then some tenantDescription else none }

/-- `tenantResource.Update`: also maps through the nil-safe getters. -/
def Update (c : Client) (plan : TenantModel) : OpResult TenantModel :=
  let projectId := plan.projectId.valueString
  let environmentId := plan.environmentId.valueString
  let tenantKey := plan.key.valueString
  let updateTenant := updateRequest plan
  let calls := [ApiCall.setContext projectId environmentId,
                ApiCall.tenantsUpdate projectId environmentId tenantKey updateTenant]
  match c.tenantsUpdate projectId environmentId tenantKey updateTenant with
  | .error e => { outcome := .err ⟨"Unable to update tenant", e⟩, calls := calls }
  | .ok tenant =>
    { outcome := .ok
        { id := .value tenant.id
          organizationId := .value tenant.organizationId
          projectId := .value tenant.projectId
          environmentId := .value tenant.environmentId
          key := .value tenant.key
          name := .value tenant.name
          description := .value tenant.getDescription }
      calls := calls }

/-- `tenantResource.Delete`. -/
def Delete (c : Client) (state : TenantModel) : OpResult Unit :=
  let projectId := state.projectId.valueString
  let environmentId := state.environmentId.valueString
  let tenantKey := state.key.valueString
  let calls := [ApiCall.setContext projectId environmentId,
                ApiCall.tenantsDelete projectId environmentId tenantKey]
  match c.tenantsDelete projectId environmentId tenantKey with
  | .error e => { outcome := .err ⟨"Unable to delete tenant", e⟩, calls := calls }
  | .ok _ => { outcome := .ok (), calls := calls }

/-- `tenantResource.ImportState`: 3 segments; resolves project key, sets
context to the project id, resolves environment key, then writes
`project_id`, `environment_id`, `key`. -/
def ImportState (c : Client) (reqID : String) : ImportResult :=
  match splitSlash reqID with
  | [projectKey, environmentKey, tenantKey] =>
    (match c.projectsGet projectKey with
     | .error e =>
       { diags := [⟨"Unable to read project", e⟩], attrs := [], calls := [.projectsGet projectKey] }
     | .ok project =>
       (match c.environmentsGet project.id environmentKey with
        | .error e =>
          { diags := [⟨"Unable to read environment", e⟩]
            attrs := []
            calls := [.projectsGet projectKey, .setContext project.id "",
                      .environmentsGet project.id environmentKey] }
        | .ok environment =>
          { diags := []
            attrs := [("project_id", project.id), ("environment_id", environment.id),
                      ("key", tenantKey)]
            calls := [.projectsGet projectKey, .setContext project.id "",
                      .environmentsGet project.id environmentKey] }))
  | _ =>
    { diags := [⟨"Error importing tenant",
        "Could not import tenant, ID should be an \x7bproject-key\x7d/\x7benvironment-key\x7d/\x7btenant-key\x7d"⟩]
      attrs := []
      calls := [] }

end tenantResource

/- ===== resourceResource (internal/provider/resource_resource.go) ===== -/

namespace resourceResource

/-- `models.NewResourceCreate(key, name, actions)` with an empty actions
map, plus conditional `SetDescription`. -/
def createRequest (plan : ResourceModel) : ResourceCreate :=
  let resourceKey := plan.key.valueString
  let resourceName := plan.name.valueString
  let resourceDescription := plan.description.valueString
  { key := resourceKey
    name := resourceName
    actions := []
    description := if resourceDescription ≠ "" then some resourceDescription else none }

/-- `resourceResource.Create`. -/
def Create (c : Client) (plan : ResourceModel) : OpResult ResourceModel :=
  let projectId := plan.projectId.valueString
  let environmentId := plan.environmentId.valueString
  let newResource := createRequest plan
  let calls := [ApiCall.setContext projectId environmentId,
                ApiCall.resourcesCreate projectId environmentId newResource]
  match c.resourcesCreate projectId environmentId newResource with
  | .error e => { outcome := .err ⟨"Unable to create resource", e⟩, calls := calls }
  | .ok permitResource =>
    match permitResource.description with
    | none => { outcome := .goPanic, calls := calls }
    | some d =>
      { outcome := .ok
          { id := .value permitResource.id
            organizationId := .value permitResource.organizationId
            projectId := .value permitResource.projectId
            environmentId := .value permitResource.environmentId
            key := .value permitResource.key
            name := .value permitResource.name
            description := .value d }
        calls := calls }

/-- `resourceResource.Read`. -/
def Read (c : Client) (state : ResourceModel) : OpResult ResourceModel :=
  let projectId := state.projectId.valueString
  let environmentId := state.environmentId.valueString
  let resourceKey := state.key.valueString
  let calls := [ApiCall.setContext projectId environmentId,
                ApiCall.resourcesGet projectId environmentId resourceKey]
  match c.resourcesGet projectId environmentId resourceKey with
  | .error e => { outcome := .err ⟨"Unable to read resource", e⟩, calls := calls }
  | .ok permitResource =>
    match permitResource.description with
    | none => { outcome := .goPanic, calls := calls }
    | some d =>
      { outcome := .ok
          { id := .value permitResource.id
            organizationId := .value permitResource.organizationId
            projectId := .value permitResource.projectId
            environmentId := .value permitResource.environmentId
            key := .value permitResource.key
            name := .value permitResource.name
            description := .value d }
        calls := calls }

/-- `models.NewResourceUpdate`, `SetName`, conditional `SetDescription`. -/
def updateRequest (plan : ResourceModel) : ResourceUpdate :=
  let resourceName := plan.name.valueString
  let resourceDescription := plan.description.valueString
  { name := some resourceName
    description := if resourceDescription ≠ "" then some resourceDescription else none }

/-- `resourceResource.Update`. -/
def Update (c : Client) (plan : ResourceModel) : OpResult ResourceModel :=
  let projectId := plan.projectId.valueString
  let environmentId := plan.environmentId.valueString
  let resourceKey := plan.key.valueString
  let updateResource := updateRequest plan
  let calls := [ApiCall.setContext projectId environmentId,
                ApiCall.resourcesUpdate projectId environmentId resourceKey updateResource]
  match c.resourcesUpdate projectId environmentId resourceKey updateResource with
  | .error e => { outcome := .err ⟨"Unable to update resource", e⟩, calls := calls }
  | .ok permitResource =>
    match permitResource.description with
    | none => { outcome := .goPanic, calls := calls }
    | some d =>
      { outcome := .ok
          { id := .value permitResource.id
            organizationId := .value permitResource.organizationId
            projectId := .value permitResource.projectId
            environmentId := .value permitResource.environmentId
            key := .value permitResource.key
            name := .value permitResource.name
            description := .value d }
        calls := calls }

/-- `resourceResource.Delete`. -/
def Delete (c : Client) (state : ResourceModel) : OpResult Unit :=
  let projectId := state.projectId.valueString
  let environmentId := state.environmentId.valueString
  let resourceKey := state.key.valueString
  let calls := [ApiCall.setContext projectId environmentId,
                ApiCall.resourcesDelete projectId environmentId resourceKey]
  match c.resourcesDelete projectId environmentId resourceKey with
  | .error e => { outcome := .err ⟨"Unable to delete resource", e⟩, calls := calls }
  | .ok _ => { outcome := .ok (), calls := calls }

/-- `resourceResource.ImportState`: 3 segments, same resolution chain as
the tenant import. -/
def ImportState (c : Client) (reqID : String) : ImportResult :=
  match splitSlash reqID with
  | [projectKey, environmentKey, resourceKey] =>
    (match c.projectsGet projectKey with
     | .error e =>
       { diags := [⟨"Unable to read project", e⟩], attrs := [], calls := [.projectsGet projectKey] }
     | .ok project =>
       (match c.environmentsGet project.id environmentKey with
        | .error e =>
          { diags := [⟨"Unable to read environment", e⟩]
            attrs := []
            calls := [.projectsGet projectKey, .setContext project.id "",
                      .environmentsGet project.id environmentKey] }
        | .ok environment =>
          { diags := []
            attrs := [("project_id", project.id), ("environment_id", environment.id),
                      ("key", resourceKey)]
            calls := [.projectsGet projectKey, .setContext project.id "",
                      .environmentsGet project.id environmentKey] }))
  | _ =>
    { diags := [⟨"Error importing resource",
        "Could not import resource, ID should be an \x7bproject-key\x7d/\x7benvironment-key\x7d/\x7bresource-key\x7d"⟩]
      attrs := []
      calls := [] }

end resourceResource

/- ===== resourceActionResource (src/unnamed/part_001) ===== -/

namespace resourceActionResource

/-- `models.NewResourceActionCreate` plus conditional `SetDescription`. -/
def createRequest (plan : ResourceActionModel) : ResourceActionCreate :=
  let resourceActionKey := plan.key.valueString
  let resourceActionName := plan.name.valueString
  let resourceActionDescription := plan.description.valueString
  { key := resourceActionKey
    name := resourceActionName
    description := if resourceActionDescription ≠ "" then some resourceActionDescription else none }

/-- `resourceActionResource.Create`: the client call also takes the
resource id from the plan. -/
def Create (c : Client) (plan : ResourceActionModel) : OpResult ResourceActionModel :=
  let projectId := plan.projectId.valueString
  let environmentId := plan.environmentId.valueString
  let resourceId := plan.resourceId.valueString
  let newResourceAction := createRequest plan
  let calls := [ApiCall.setContext projectId environmentId,
                ApiCall.resourceActionsCreate projectId environmentId resourceId newResourceAction]
  match c.resourceActionsCreate projectId environmentId resourceId newResourceAction with
  | .error e => { outcome := .err ⟨"Unable to create resource action", e⟩, calls := calls }
  | .ok resourceAction =>
    match resourceAction.description with
    | none => { outcome := .goPanic, calls := calls }
    | some d =>
      { outcome := .ok
          { id := .value resourceAction.id
            organizationId := .value resourceAction.organizationId
            projectId := .value resourceAction.projectId
            environmentId := .value resourceAction.environmentId
            resourceId := .value resourceAction.resourceId
            key := .value resourceAction.key
            name := .value resourceAction.name
            description := .value d }
        calls := calls }

/-- `resourceActionResource.Read`. -/
def Read (c : Client) (state : ResourceActionModel) : OpResult ResourceActionModel :=
  let projectId := state.projectId.valueString
  let environmentId := state.environmentId.valueString
  let resourceId := state.resourceId.valueString
  let resourceActionKey := state.key.valueString
  let calls := [ApiCall.setContext projectId environmentId,
                ApiCall.resourceActionsGet projectId environmentId resourceId resourceActionKey]
  match c.resourceActionsGet projectId environmentId resourceId resourceActionKey with
  | .error e => { outcome := .err ⟨"Unable to read resource action", e⟩, calls := calls }
  | .ok resourceAction =>
    match resourceAction.description with
    | none => { outcome := .goPanic, calls := calls }
    | some d =>
      { outcome := .ok
          { id := .value resourceAction.id
            organizationId := .value resourceAction.organizationId
            projectId := .value resourceAction.projectId
            environmentId := .value resourceAction.environmentId
            resourceId := .value resourceAction.resourceId
            key := .value resourceAction.key
            name := .value resourceAction.name
            description := .value d }
        calls := calls }

/-- `models.NewResourceActionUpdate`, `SetName`, conditional
`SetDescription`. -/
def updateRequest (plan : ResourceActionModel) : ResourceActionUpdate :=
  let resourceActionName := plan.name.valueString
  let resourceActionDescription := plan.description.valueString
  { name := some resourceActionName
    description := if resourceActionDescription ≠ "" then some resourceActionDescription else none }

/-- `resourceActionResource.Update`. -/
def Update (c : Client) (plan : ResourceActionModel) : OpResult ResourceActionModel :=
  let projectId := plan.projectId.valueString
  let environmentId := plan.environmentId.valueString
  let resourceId := plan.resourceId.valueString
  let resourceActionKey := plan.key.valueString
  let updateResourceAction := updateRequest plan
  let calls := [ApiCall.setContext projectId environmentId,
                ApiCall.resourceActionsUpdate projectId environmentId resourceId resourceActionKey updateResourceAction]
  match c.resourceActionsUpdate projectId environmentId resourceId resourceActionKey updateResourceAction with
  | .error e => { outcome := .err ⟨"Unable to update resource action", e⟩, calls := calls }
  | .ok resourceAction =>
    match resourceAction.description with
    | none => { outcome := .goPanic, calls := calls }
    | some d =>
      { outcome := .ok
          { id := .value resourceAction.id
            organizationId := .value resourceAction.organizationId
            projectId := .value resourceAction.projectId
            environmentId := .value resourceAction.environmentId
            resourceId := .value resourceAction.resourceId
            key := .value resourceAction.key
            name := .value resourceAction.name
            description := .value d }
        calls := calls }

/-- `resourceActionResource.Delete`. -/
def Delete (c : Client) (state : ResourceActionModel) : OpResult Unit :=
  let projectId := state.projectId.valueString
  let environmentId := state.environmentId.valueString
  let resourceId := state.resourceId.valueString
  let resourceActionKey := state.key.valueString
  let calls := [ApiCall.setContext projectId environmentId,
                ApiCall.resourceActionsDelete projectId environmentId resourceId resourceActionKey]
  match c.resourceActionsDelete projectId environmentId resourceId resourceActionKey with
  | .error e => { outcome := .err ⟨"Unable to delete resource action", e⟩, calls := calls }
  | .ok _ => { outcome := .ok (), calls := calls }

/-- `resourceActionResource.ImportState`: 4 segments; resolves project,
environment (context scoped to the project), and resource (context scoped
to project and environment), then writes `project_id`, `environment_id`,
`resource_id`, `key`. -/
def ImportState (c : Client) (reqID : String) : ImportResult :=
  match splitSlash reqID with
  | [projectKey, environmentKey, resourceKey, resourceActionKey] =>
    (match c.projectsGet projectKey with
     | .error e =>
       { diags := [⟨"Unable to read project", e⟩], attrs := [], calls := [.projectsGet projectKey] }
     | .ok project =>
       (match c.environmentsGet project.id environmentKey with
        | .error e =>
          { diags := [⟨"Unable to read environment", e⟩]
            attrs := []
            calls := [.projectsGet projectKey, .setContext project.id "",
                      .environmentsGet project.id environmentKey] }
        | .ok environment =>
          (match c.resourcesGet project.id environment.id resourceKey with
           | .error e =>
             { diags := [⟨"Unable to read resource", e⟩]
               attrs := []
               calls := [.projectsGet projectKey, .setContext project.id "",
                         .environmentsGet project.id environmentKey,
                         .setContext project.id environment.id,
                         .resourcesGet project.id environment.id resourceKey] }
           | .ok permitResource =>
             { diags := []
               attrs := [("project_id", project.id), ("environment_id", environment.id),
                         ("resource_id", permitResource.id), ("key", resourceActionKey)]
               calls := [.projectsGet projectKey, .setContext project.id "",
                         .environmentsGet project.id environmentKey,
                         .setContext project.id environment.id,
                         .resourcesGet project.id environment.id resourceKey] })))
  | _ =>
    { diags := [⟨"Error importing resource action",
        "Could not import resource action, ID should be an \x7bproject-key\x7d/\x7benvironment-key\x7d/\x7bresource-key\x7d/\x7bresource-action-key\x7d"⟩]
      attrs := []
      calls := [] }

end resourceActionResource

/- ===== roleResource (internal/provider/resource_role.go) ===== -/

namespace roleResource

/-- `models.NewRoleCreate`, conditional `SetDescription`, then
`SetPermissions` with the list extracted from the planned set. -/
def createRequest (plan : RoleModel) (rolePermissions : List String) : RoleCreate :=
  let roleKey := plan.key.valueString
  let roleName := plan.name.valueString
  let roleDescription := plan.description.valueString
  { key := roleKey
    name := roleName
    description := if roleDescription ≠ "" then some roleDescription else none
    permissions := some rolePermissions }

/-- `roleResource.Create`: `plan.Permissions.ElementsAs` extracts the
planned permission strings (a framework conversion diagnostic aborts the
operation when the set is null or unknown); the success mapping uses
`types.SetValueFrom(role.Permissions)` and dereferences
`*role.Description`. -/
def Create (c : Client) (plan : RoleModel) : OpResult RoleModel :=
  match plan.permissions with
  | .value rolePermissions =>
    let projectId := plan.projectId.valueString
    let environmentId := plan.environmentId.valueString
    let newRole := createRequest plan rolePermissions
    let calls := [ApiCall.setContext projectId environmentId,
                  ApiCall.rolesCreate projectId environmentId newRole]
    match c.rolesCreate projectId environmentId newRole with
    | .error e => { outcome := .err ⟨"Unable to create role", e⟩, calls := calls }
    | .ok role =>
      match role.description with
      | none => { outcome := .goPanic, calls := calls }
      | some d =>
        { outcome := .ok
            { id := .value role.id
              organizationId := .value role.organizationId
              projectId := .value role.projectId
              environmentId := .value role.environmentId
              key := .value role.key
              name := .value role.name
              description := .value d
              permissions := .value role.permissions }
          calls := calls }
  | _ =>
    { outcome := .err ⟨"Value Conversion Error",
        "ElementsAs reported an unhandled null or unknown set value"⟩
      calls := [] }

/-- `roleResource.Read`: the rebuilt `roleResourceModel` omits the
`Permissions` field, so it keeps the Go zero value — the null set. -/
def Read (c : Client) (state : RoleModel) : OpResult RoleModel :=
  let projectId := state.projectId.valueString
  let environmentId := state.environmentId.valueString
  let roleKey := state.key.valueString
  let calls := [ApiCall.setContext projectId environmentId,
                ApiCall.rolesGet projectId environmentId roleKey]
  match c.rolesGet projectId environmentId roleKey with
  | .error e => { outcome := .err ⟨"Unable to read role", e⟩, calls := calls }
  | .ok role =>
    match role.description with
    | none => { outcome := .goPanic, calls := calls }
    | some d =>
      { outcome := .ok
          { id := .value role.id
            organizationId := .value role.organizationId
            projectId := .value role.projectId
            environmentId := .value role.environmentId
            key := .value role.key
            name := .value role.name
            description := .value d
            permissions := .null }
        calls := calls }

/-- `models.NewRoleUpdate`, `SetName`, conditional `SetDescription`;
`SetPermissions` is never called. -/
def updateRequest (plan : RoleModel) : RoleUpdate :=
  let roleName := plan.name.valueString
  let roleDescription := plan.description.valueString
  { name := some roleName
    description := if roleDescription ≠ "" then some roleDescription else none
    permissions := none }

/-- `roleResource.Update`: like Read, the rebuilt model omits
`Permissions`, leaving the null set. -/
def Update (c : Client) (plan : RoleModel) : OpResult RoleModel :=
  let projectId := plan.projectId.valueString
  let environmentId := plan.environmentId.valueString
  let roleKey := plan.key.valueString
  let updateRole := updateRequest plan
  let calls := [ApiCall.setContext projectId environmentId,
                ApiCall.rolesUpdate projectId environmentId roleKey updateRole]
  match c.rolesUpdate projectId environmentId roleKey updateRole with
  | .error e => { outcome := .err ⟨"Unable to update role", e⟩, calls := calls }
  | .ok role =>
    match role.description with
    | none => { outcome := .goPanic, calls := calls }
    | some d =>
      { outcome := .ok
          { id := .value role.id
            organizationId := .value role.organizationId
            projectId := .value role.projectId
            environmentId := .value role.environmentId
            key := .value role.key
            name := .value role.name
            description := .value d
            permissions := .null }
        calls := calls }

/-- `roleResource.Delete`. -/
def Delete (c : Client) (state : RoleModel) : OpResult Unit :=
  let projectId := state.projectId.valueString
  let environmentId := state.environmentId.valueString
  let roleKey := state.key.valueString
  let calls := [ApiCall.setContext projectId environmentId,
                ApiCall.rolesDelete projectId environmentId roleKey]
  match c.rolesDelete projectId environmentId roleKey with
  | .error e => { outcome := .err ⟨"Unable to delete role", e⟩, calls := calls }
  | .ok _ => { outcome := .ok (), calls := calls }

/-- `roleResource.ImportState`: 3 segments, same chain as tenant import. -/
def ImportState (c : Client) (reqID : String) : ImportResult :=
  match splitSlash reqID with
  | [projectKey, environmentKey, roleKey] =>
    (match c.projectsGet projectKey with
     | .error e =>
       { diags := [⟨"Unable to read project", e⟩], attrs := [], calls := [.projectsGet projectKey] }
     | .ok project =>
       (match c.environmentsGet project.id environmentKey with
        | .error e =>
          { diags := [⟨"Unable to read environment", e⟩]
            attrs := []
            calls := [.projectsGet projectKey, .setContext project.id "",
                      .environmentsGet project.id environmentKey] }
        | .ok environment =>
          { diags := []
            attrs := [("project_id", project.id), ("environment_id", environment.id),
                      ("key", roleKey)]
            calls := [.projectsGet projectKey, .setContext project.id "",
                      .environmentsGet project.id environmentKey] }))
  | _ =>
    { diags := [⟨"Error importing role",
        "Could not import role, ID should be an \x7bproject-key\x7d/\x7benvironment-key\x7d/\x7brole-key\x7d"⟩]
      attrs := []
      calls := [] }

end roleResource

/- ===== permitProvider (internal/provider/provider.go) ===== -/

namespace permitProvider

/-- `permitProvider.Configure` lines 67-113: rejects an unknown `api_key`,
defaults to the `PERMIT_API_KEY` environment variable, overrides with the
configured value when it is non-null, rejects an empty effective key, and
otherwise builds the client from the resolved key (returned here). -/
def Configure (apiKeyConfig : TFString) (envPermitApiKey : String) : Except Diag String :=
  if apiKeyConfig.isUnknown then
    .error ⟨"Unknown API Key",
      "The provider cannot create the Permit client as there is an unknown configuration value for the API Key. Either target apply the source of the value first, set the value statically in the configuration, or use the PERMIT_API_KEY environment variable."⟩
  else
    let apiKey := if apiKeyConfig.isNull then envPermitApiKey else apiKeyConfig.valueString
    if apiKey = "" then
      .error ⟨"Missing API Key",
        "The provider cannot create the Permit client as there is a missing or empty value for the API Key. Set the api_key value in the configuration or use the PERMIT_API_KEY environment variable. If either is already set, ensure the value is not empty."⟩
    else
      .ok apiKey

end permitProvider

/- ===== Concrete fixtures used by witnesses and concrete evaluations ===== -/

/-- A client whose every endpoint fails, each with its own message. -/
def errClient : Client where
  projectsGet _ := .error "project get failed"
  projectsCreate _ := .error "project create failed"
  projectsUpdate _ _ := .error "project update failed"
  projectsDelete _ := .error "project delete failed"
  environmentsGet _ _ := .error "environment get failed"
  environmentsCreate _ _ := .error "environment create failed"
  environmentsUpdate _ _ _ := .error "environment update failed"
  environmentsDelete _ _ := .error "environment delete failed"
  tenantsGet _ _ _ := .error "tenant get failed"
  tenantsCreate _ _ _ := .error "tenant create failed"
  tenantsUpdate _ _ _ _ := .error "tenant update failed"
  tenantsDelete _ _ _ := .error "tenant delete failed"
  resourcesGet _ _ _ := .error "resource get failed"
  resourcesCreate _ _ _ := .error "resource create failed"
  resourcesUpdate _ _ _ _ := .error "resource update failed"
  resourcesDelete _ _ _ := .error "resource delete failed"
  resourceActionsGet _ _ _ _ := .error "resource action get failed"
  resourceActionsCreate _ _ _ _ := .error "resource action create failed"
  resourceActionsUpdate _ _ _ _ _ := .error "resource action update failed"
  resourceActionsDelete _ _ _ _ := .error "resource action delete failed"
  rolesGet _ _ _ := .error "role get failed"
  rolesCreate _ _ _ := .error "role create failed"
  rolesUpdate _ _ _ _ := .error "role update failed"
  rolesDelete _ _ _ := .error "role delete failed"

/-- Project response with an omitted (nil) description. -/
def pNone : ProjectRead := ⟨"p-id", "org-id", "proj", "Proj", none⟩

/-- Environment response with an omitted description. -/
def eNone : EnvironmentRead := ⟨"e-id", "org-id", "p-id", "env", "Env", none⟩

/-- Tenant response with an omitted description. -/
def tNone : TenantRead := ⟨"t-id", "org-id", "p-id", "e-id", "ten", "Ten", none⟩

/-- Resource response with an omitted description. -/
def rNone : ResourceRead := ⟨"res-id", "org-id", "p-id", "e-id", "res", "Res", none⟩

/-- Resource action response with an omitted description. -/
def raNone : ResourceActionRead := ⟨"ra-id", "org-id", "p-id", "e-id", "res-id", "act", "Act", none⟩

/-- Role response with an omitted description. -/
def roNone : RoleRead := ⟨"ro-id", "org-id", "p-id", "e-id", "role", "Role", none, []⟩

/-- A client whose every endpoint succeeds but the server omits the
optional description in every response. -/
def noneDescClient : Client where
  projectsGet _ := .ok pNone
  projectsCreate _ := .ok pNone
  projectsUpdate _ _ := .ok pNone
  projectsDelete _ := .ok ()
  environmentsGet _ _ := .ok eNone
  environmentsCreate _ _ := .ok eNone
  environmentsUpdate _ _ _ := .ok eNone
  environmentsDelete _ _ := .ok ()
  tenantsGet _ _ _ := .ok tNone
  tenantsCreate _ _ _ := .ok tNone
  tenantsUpdate _ _ _ _ := .ok tNone
  tenantsDelete _ _ _ := .ok ()
  resourcesGet _ _ _ := .ok rNone
  resourcesCreate _ _ _ := .ok rNone
  resourcesUpdate _ _ _ _ := .ok rNone
  resourcesDelete _ _ _ := .ok ()
  resourceActionsGet _ _ _ _ := .ok raNone
  resourceActionsCreate _ _ _ _ := .ok raNone
  resourceActionsUpdate _ _ _ _ _ := .ok raNone
  resourceActionsDelete _ _ _ _ := .ok ()
  rolesGet _ _ _ := .ok roNone
  rolesCreate _ _ _ := .ok roNone
  rolesUpdate _ _ _ _ := .ok roNone
  rolesDelete _ _ _ := .ok ()

/-- Sample planned environment. -/
def envPlan : EnvironmentModel :=
  ⟨.unknown, .unknown, .value "p-id", .value "env", .value "Env", .value "d"⟩

/-- Sample planned project. -/
def projPlan : ProjectModel :=
  ⟨.value "proj", .unknown, .unknown, .value "Proj", .null⟩

/-- Sample planned tenant. -/
def tenantPlan : TenantModel :=
  ⟨.unknown, .unknown, .value "p-id", .value "e-id", .value "ten", .value "Ten", .null⟩

/-- Sample planned resource. -/
def resourcePlan : ResourceModel :=
  ⟨.unknown, .unknown, .value "p-id", .value "e-id", .value "res", .value "Res", .value "d"⟩

/-- Sample planned resource action. -/
def actionPlan : ResourceActionModel :=
  ⟨.unknown, .unknown, .value "p-id", .value "e-id", .value "res-id", .value "act", .value "Act", .null⟩

/-- Sample planned role, with a known permissions set. -/
def rolePlan : RoleModel :=
  ⟨.unknown, .unknown, .value "p-id", .value "e-id", .value "role", .value "Role", .value "d",
   .value ["document:read"]⟩

/-- Project `proj1` resolving to id `p-uuid` (spec example). -/
def proj1 : ProjectRead := ⟨"p-uuid", "org-1", "proj1", "Project One", some "p"⟩

/-- Environment `env1` under `p-uuid` resolving to id `e-uuid`. -/
def env1 : EnvironmentRead := ⟨"e-uuid", "org-1", "p-uuid", "env1", "Env One", some "e"⟩

/-- A client that resolves exactly `proj1` and (scoped to `p-uuid`)
`env1`, failing every other lookup. -/
def importClient : Client :=
  { errClient with
    projectsGet := fun k => if k = "proj1" then .ok proj1 else .error "project not found"
    environmentsGet := fun p k =>
      if p = "p-uuid" && k = "env1" then .ok env1 else .error "environment not found" }

/-- A role response carrying a non-empty permissions list, used to
evaluate the Role Read/Update state mapping concretely. -/
def c3Role : RoleRead :=
  ⟨"r-id", "org-1", "p-id", "e-id", "admin", "Admin", some "Admin role", ["document:read"]⟩

/-- A client whose role endpoints return `c3Role`. -/
def c3Client : Client :=
  { errClient with
    rolesGet := fun _ _ _ => .ok c3Role
    rolesUpdate := fun _ _ _ _ => .ok c3Role }

/- ===== Claims ===== -/

/-- C1: for every importable entity kind, a composite ID whose number of
`/`-separated segments differs from the kind's required count (2 for
Environment, 3 for Tenant/Role/Resource, 4 for ResourceAction) makes
ImportState add exactly the format-error diagnostic, write no attribute
into state, and perform no remote call. -/
theorem import_wrong_segment_count_rejected (c : Client) (reqID : String) :
    ((splitSlash reqID).length ≠ 2 →
      environmentResource.ImportState c reqID =
        { diags := [⟨"Error importing environment",
            "Could not import environment, ID should be an \x7bprojectId\x7d/\x7benvironmentKey\x7d"⟩]
          attrs := [], calls := [] })
    ∧ ((splitSlash reqID).length ≠ 3 →
      tenantResource.ImportState c reqID =
        { diags := [⟨"Error importing tenant",
            "Could not import tenant, ID should be an \x7bproject-key\x7d/\x7benvironment-key\x7d/\x7btenant-key\x7d"⟩]
          attrs := [], calls := [] })
    ∧ ((splitSlash reqID).length ≠ 3 →
      roleResource.ImportState c reqID =
        { diags := [⟨"Error importing role",
            "Could not import role, ID should be an \x7bproject-key\x7d/\x7benvironment-key\x7d/\x7brole-key\x7d"⟩]
          attrs := [], calls := [] })
    ∧ ((splitSlash reqID).length ≠ 3 →
      resourceResource.ImportState c reqID =
        { diags := [⟨"Error importing resource",
            "Could not import resource, ID should be an \x7bproject-key\x7d/\x7benvironment-key\x7d/\x7bresource-key\x7d"⟩]
          attrs := [], calls := [] })
    ∧ ((splitSlash reqID).length ≠ 4 →
      resourceActionResource.ImportState c reqID =
        { diags := [⟨"Error importing resource action",
            "Could not import resource action, ID should be an \x7bproject-key\x7d/\x7benvironment-key\x7d/\x7bresource-key\x7d/\x7bresource-action-key\x7d"⟩]
          attrs := [], calls := [] }) := by
  refine ⟨?_, ?_, ?_, ?_, ?_⟩
  · intro h
    rcases hl : splitSlash reqID with _ | ⟨a, _ | ⟨b, _ | ⟨x, t⟩⟩⟩
    · simp [environmentResource.ImportState, hl]
    · simp [environmentResource.ImportState, hl]
    · rw [hl] at h; simp at h
    · simp [environmentResource.ImportState, hl]
  · intro h
    rcases hl : splitSlash reqID with _ | ⟨a, _ | ⟨b, _ | ⟨x, _ | ⟨y, t⟩⟩⟩⟩
    · simp [tenantResource.ImportState, hl]
    · simp [tenantResource.ImportState, hl]
    · simp [tenantResource.ImportState, hl]
    · rw [hl] at h; simp at h
    · simp [tenantResource.ImportState, hl]
  · intro h
    rcases hl : splitSlash reqID with _ | ⟨a, _ | ⟨b, _ | ⟨x, _ | ⟨y, t⟩⟩⟩⟩
    · simp [roleResource.ImportState, hl]
    · simp [roleResource.ImportState, hl]
    · simp [roleResource.ImportState, hl]
    · rw [hl] at h; simp at h
    · simp [roleResource.ImportState, hl]
  · intro h
    rcases hl : splitSlash reqID with _ | ⟨a, _ | ⟨b, _ | ⟨x, _ | ⟨y, t⟩⟩⟩⟩
    · simp [resourceResource.ImportState, hl]
    · simp [resourceResource.ImportState, hl]
    · simp [resourceResource.ImportState, hl]
    · rw [hl] at h; simp at h
    · simp [resourceResource.ImportState, hl]
  · intro h
    rcases hl : splitSlash reqID with _ | ⟨a, _ | ⟨b, _ | ⟨x, _ | ⟨y, _ | ⟨z, t⟩⟩⟩⟩⟩
    · simp [resourceActionResource.ImportState, hl]
    · simp [resourceActionResource.ImportState, hl]
    · simp [resourceActionResource.ImportState, hl]
    · simp [resourceActionResource.ImportState, hl]
    · rw [hl] at h; simp at h
    · simp [resourceActionResource.ImportState, hl]

/-- C1 witness: concrete wrong-segment imports for all five kinds, in
particular the spec's Tenant example `"proj-key/env-key"`. -/
theorem import_wrong_segment_count_rejected_witness :
    environmentResource.ImportState errClient "proj-key" =
      { diags := [⟨"Error importing environment",
          "Could not import environment, ID should be an \x7bprojectId\x7d/\x7benvironmentKey\x7d"⟩]
        attrs := [], calls := [] }
    ∧ tenantResource.ImportState errClient "proj-key/env-key" =
      { diags := [⟨"Error importing tenant",
          "Could not import tenant, ID should be an \x7bproject-key\x7d/\x7benvironment-key\x7d/\x7btenant-key\x7d"⟩]
        attrs := [], calls := [] }
    ∧ roleResource.ImportState errClient "proj-key/env-key" =
      { diags := [⟨"Error importing role",
          "Could not import role, ID should be an \x7bproject-key\x7d/\x7benvironment-key\x7d/\x7brole-key\x7d"⟩]
        attrs := [], calls := [] }
    ∧ resourceResource.ImportState errClient "a/b/c/d" =
      { diags := [⟨"Error importing resource",
          "Could not import resource, ID should be an \x7bproject-key\x7d/\x7benvironment-key\x7d/\x7bresource-key\x7d"⟩]
        attrs := [], calls := [] }
    ∧ resourceActionResource.ImportState errClient "a/b/c" =
      { diags := [⟨"Error importing resource action",
          "Could not import resource action, ID should be an \x7bproject-key\x7d/\x7benvironment-key\x7d/\x7bresource-key\x7d/\x7bresource-action-key\x7d"⟩]
        attrs := [], calls := [] } :=
  ⟨(import_wrong_segment_count_rejected errClient "proj-key").1 (by decide),
   (import_wrong_segment_count_rejected errClient "proj-key/env-key").2.1 (by decide),
   (import_wrong_segment_count_rejected errClient "proj-key/env-key").2.2.1 (by decide),
   (import_wrong_segment_count_rejected errClient "a/b/c/d").2.2.2.1 (by decide),
   (import_wrong_segment_count_rejected errClient "a/b/c").2.2.2.2 (by decide)⟩

/-- C2: a well-formed 3-segment composite ID given to the Tenant or Role
importer resolves the project key to its id P, and the environment key
(scoped to P) to its id E, and writes exactly `project_id = P`,
`environment_id = E`, `key = third segment`; if either lookup fails, the
whole import aborts with an error diagnostic, writing no foreign-key id. -/
theorem import_resolves_parent_keys (c : Client) (reqID : String)
    (projectKey environmentKey entityKey : String)
    (hsplit : splitSlash reqID = [projectKey, environmentKey, entityKey]) :
    (∀ project environment,
       c.projectsGet projectKey = .ok project →
       c.environmentsGet project.id environmentKey = .ok environment →
       tenantResource.ImportState c reqID =
         { diags := []
           attrs := [("project_id", project.id), ("environment_id", environment.id),
                     ("key", entityKey)]
           calls := [.projectsGet projectKey, .setContext project.id "",
                     .environmentsGet project.id environmentKey] }
       ∧ roleResource.ImportState c reqID =
         { diags := []
           attrs := [("project_id", project.id), ("environment_id", environment.id),
                     ("key", entityKey)]
           calls := [.projectsGet projectKey, .setContext project.id "",
                     .environmentsGet project.id environmentKey] })
    ∧ (∀ e, c.projectsGet projectKey = .error e →
       tenantResource.ImportState c reqID =
         { diags := [⟨"Unable to read project", e⟩], attrs := []
           calls := [.projectsGet projectKey] }
       ∧ roleResource.ImportState c reqID =
         { diags := [⟨"Unable to read project", e⟩], attrs := []
           calls := [.projectsGet projectKey] })
    ∧ (∀ project e,
       c.projectsGet projectKey = .ok project →
       c.environmentsGet project.id environmentKey = .error e →
       tenantResource.ImportState c reqID =
         { diags := [⟨"Unable to read environment", e⟩], attrs := []
           calls := [.projectsGet projectKey, .setContext project.id "",
                     .environmentsGet project.id environmentKey] }
       ∧ roleResource.ImportState c reqID =
         { diags := [⟨"Unable to read environment", e⟩], attrs := []
           calls := [.projectsGet projectKey, .setContext project.id "",
                     .environmentsGet project.id environmentKey] }) := by
  refine ⟨?_, ?_, ?_⟩
  · intro project environment hp he
    exact ⟨by simp [tenantResource.ImportState, hsplit, hp, he],
           by simp [roleResource.ImportState, hsplit, hp, he]⟩
  · intro e hp
    exact ⟨by simp [tenantResource.ImportState, hsplit, hp],
           by simp [roleResource.ImportState, hsplit, hp]⟩
  · intro project e hp he
    exact ⟨by simp [tenantResource.ImportState, hsplit, hp, he],
           by simp [roleResource.ImportState, hsplit, hp, he]⟩

/-- C2 witness: the spec example `"proj1/env1/tenant1"` against a client
resolving `proj1 ↦ p-uuid` and `env1 ↦ e-uuid`, plus the abort case when
the project lookup fails. -/
theorem import_resolves_parent_keys_witness :
    tenantResource.ImportState importClient "proj1/env1/tenant1" =
      { diags := []
        attrs := [("project_id", "p-uuid"), ("environment_id", "e-uuid"), ("key", "tenant1")]
        calls := [.projectsGet "proj1", .setContext "p-uuid" "",
                  .environmentsGet "p-uuid" "env1"] }
    ∧ roleResource.ImportState importClient "proj1/env1/tenant1" =
      { diags := []
        attrs := [("project_id", "p-uuid"), ("environment_id", "e-uuid"), ("key", "tenant1")]
        calls := [.projectsGet "proj1", .setContext "p-uuid" "",
                  .environmentsGet "p-uuid" "env1"] }
    ∧ tenantResource.ImportState errClient "proj1/env1/tenant1" =
      { diags := [⟨"Unable to read project", "project get failed"⟩], attrs := []
        calls := [.projectsGet "proj1"] } :=
  ⟨((import_resolves_parent_keys importClient "proj1/env1/tenant1" "proj1" "env1" "tenant1"
      (by decide)).1 proj1 env1 rfl rfl).1,
   ((import_resolves_parent_keys importClient "proj1/env1/tenant1" "proj1" "env1" "tenant1"
      (by decide)).1 proj1 env1 rfl rfl).2,
   ((import_resolves_parent_keys errClient "proj1/env1/tenant1" "proj1" "env1" "tenant1"
      (by decide)).2.1 "project get failed" rfl).1⟩

/-- C3 (code bug): Role Read and Role Update rebuild the state without the
`Permissions` field — against a role response carrying permissions
`["document:read"]`, the state written has a null permissions set instead
of the response's permissions. -/
theorem roleResource_read_update_drop_permissions :
    (roleResource.Read c3Client rolePlan).outcome =
      .ok ⟨.value "r-id", .value "org-1", .value "p-id", .value "e-id", .value "admin",
           .value "Admin", .value "Admin role", .null⟩
    ∧ (roleResource.Update c3Client rolePlan).outcome =
      .ok ⟨.value "r-id", .value "org-1", .value "p-id", .value "e-id", .value "admin",
           .value "Admin", .value "Admin role", .null⟩
    ∧ c3Role.permissions = ["document:read"] :=
  ⟨rfl, rfl, rfl⟩

/-- C4 (code bug): `projectResource.Read` of resource_project.go performs
no remote call at all and re-writes the prior state unchanged, for every
client and every prior state — it never invokes the client's project Get
and the resulting state is the prior state, not a mapped response. -/
theorem projectResource_read_is_stub (c : Client) (state : ProjectModel) :
    projectResource.Read c state = { outcome := .ok state, calls := [] } :=
  rfl

/-- C5: every state mapping that dereferences the optional description
pointer directly (`*entity.Description`) — Environment, Project (full
variant and the resource_project.go Create), Resource, ResourceAction and
Role Create/Read/Update, and Tenant Create — panics when the response
omits the description, and succeeds (is total) exactly when the response
carries one. -/
theorem nil_description_response_panics (c : Client) :
    (∀ (plan : EnvironmentModel) (resp : EnvironmentRead),
       c.environmentsCreate plan.projectId.valueString (environmentResource.createRequest plan) = .ok resp →
       (environmentResource.Create c plan).outcome =
         match resp.description with
         | none => .goPanic
         | some d => .ok ⟨.value resp.id, .value resp.organizationId, .value resp.projectId,
                          .value resp.key, .value resp.name, .value d⟩)
    ∧ (∀ (state : EnvironmentModel) (resp : EnvironmentRead),
       c.environmentsGet state.projectId.valueString state.key.valueString = .ok resp →
       (environmentResource.Read c state).outcome =
         match resp.description with
         | none => .goPanic
         | some d => .ok ⟨.value resp.id, .value resp.organizationId, .value resp.projectId,
                          .value resp.key, .value resp.name, .value d⟩)
    ∧ (∀ (plan : EnvironmentModel) (resp : EnvironmentRead),
       c.environmentsUpdate plan.projectId.valueString plan.key.valueString (environmentResource.updateRequest plan) = .ok resp →
       (environmentResource.Update c plan).outcome =
         match resp.description with
         | none => .goPanic
         | some d => .ok ⟨.value resp.id, .value resp.organizationId, .value resp.projectId,
                          .value resp.key, .value resp.name, .value d⟩)
    ∧ (∀ (plan : ProjectModel) (resp : ProjectRead),
       c.projectsCreate (projectResource.createRequest plan) = .ok resp →
       (projectResource.Create c plan).outcome =
         match resp.description with
         | none => .goPanic
         | some d => .ok ⟨.value resp.key, .value resp.id, .value resp.organizationId,
                          .value resp.name, .value d⟩)
    ∧ (∀ (plan : ProjectModel) (resp : ProjectRead),
       c.projectsCreate (projectResourceAlt.createRequest plan) = .ok resp →
       (projectResourceAlt.Create c plan).outcome =
         match resp.description with
         | none => .goPanic
         | some d => .ok ⟨.value resp.key, .value resp.id, .value resp.organizationId,
                          .value resp.name, .value d⟩)
    ∧ (∀ (state : ProjectModel) (resp : ProjectRead),
       c.projectsGet state.key.valueString = .ok resp →
       (projectResourceAlt.Read c state).outcome =
         match resp.description with
         | none => .goPanic
         | some d => .ok ⟨.value resp.key, .value resp.id, .value resp.organizationId,
                          .value resp.name, .value d⟩)
    ∧ (∀ (plan : ProjectModel) (resp : ProjectRead),
       c.projectsUpdate plan.key.valueString (projectResourceAlt.updateRequest plan) = .ok resp →
       (projectResourceAlt.Update c plan).outcome =
         match resp.description with
         | none => .goPanic
         | some d => .ok ⟨.value resp.key, .value resp.id, .value resp.organizationId,
                          .value resp.name, .value d⟩)
    ∧ (∀ (plan : TenantModel) (resp : TenantRead),
       c.tenantsCreate plan.projectId.valueString plan.environmentId.valueString (tenantResource.createRequest plan) = .ok resp →
       (tenantResource.Create c plan).outcome =
         match resp.description with
         | none => .goPanic
         | some d => .ok ⟨.value resp.id, .value resp.organizationId, .value resp.projectId,
                          .value resp.environmentId, .value resp.key, .value resp.name, .value d⟩)
    ∧ (∀ (plan : ResourceModel) (resp : ResourceRead),
       c.resourcesCreate plan.projectId.valueString plan.environmentId.valueString (resourceResource.createRequest plan) = .ok resp →
       (resourceResource.Create c plan).outcome =
         match resp.description with
         | none => .goPanic
         | some d => .ok ⟨.value resp.id, .value resp.organizationId, .value resp.projectId,
                          .value resp.environmentId, .value resp.key, .value resp.name, .value d⟩)
    ∧ (∀ (state : ResourceModel) (resp : ResourceRead),
       c.resourcesGet state.projectId.valueString state.environmentId.valueString state.key.valueString = .ok resp →
       (resourceResource.Read c state).outcome =
         match resp.description with
         | none => .goPanic
         | some d => .ok ⟨.value resp.id, .value resp.organizationId, .value resp.projectId,
                          .value resp.environmentId, .value resp.key, .value resp.name, .value d⟩)
    ∧ (∀ (plan : ResourceModel) (resp : ResourceRead),
       c.resourcesUpdate plan.projectId.valueString plan.environmentId.valueString plan.key.valueString (resourceResource.updateRequest plan) = .ok resp →
       (resourceResource.Update c plan).outcome =
         match resp.description with
         | none => .goPanic
         | some d => .ok ⟨.value resp.id, .value resp.organizationId, .value resp.projectId,
                          .value resp.environmentId, .value resp.key, .value resp.name, .value d⟩)
    ∧ (∀ (plan : ResourceActionModel) (resp : ResourceActionRead),
       c.resourceActionsCreate plan.projectId.valueString plan.environmentId.valueString plan.resourceId.valueString (resourceActionResource.createRequest plan) = .ok resp →
       (resourceActionResource.Create c plan).outcome =
         match resp.description with
         | none => .goPanic
         | some d => .ok ⟨.value resp.id, .value resp.organizationId, .value resp.projectId,
                          .value resp.environmentId, .value resp.resourceId, .value resp.key,
                          .value resp.name, .value d⟩)
    ∧ (∀ (state : ResourceActionModel) (resp : ResourceActionRead),
       c.resourceActionsGet state.projectId.valueString state.environmentId.valueString state.resourceId.valueString state.key.valueString = .ok resp →
       (resourceActionResource.Read c state).outcome =
         match resp.description with
         | none => .goPanic
         | some d => .ok ⟨.value resp.id, .value resp.organizationId, .value resp.projectId,
                          .value resp.environmentId, .value resp.resourceId, .value resp.key,
                          .value resp.name, .value d⟩)
    ∧ (∀ (plan : ResourceActionModel) (resp : ResourceActionRead),
       c.resourceActionsUpdate plan.projectId.valueString plan.environmentId.valueString plan.resourceId.valueString plan.key.valueString (resourceActionResource.updateRequest plan) = .ok resp →
       (resourceActionResource.Update c plan).outcome =
         match resp.description with
         | none => .goPanic
         | some d => .ok ⟨.value resp.id, .value resp.organizationId, .value resp.projectId,
                          .value resp.environmentId, .value resp.resourceId, .value resp.key,
                          .value resp.name, .value d⟩)
    ∧ (∀ (plan : RoleModel) (perms : List String) (resp : RoleRead),
       plan.permissions = .value perms →
       c.rolesCreate plan.projectId.valueString plan.environmentId.valueString (roleResource.createRequest plan perms) = .ok resp →
       (roleResource.Create c plan).outcome =
         match resp.description with
         | none => .goPanic
         | some d => .ok ⟨.value resp.id, .value resp.organizationId, .value resp.projectId,
                          .value resp.environmentId, .value resp.key, .value resp.name,
                          .value d, .value resp.permissions⟩)
    ∧ (∀ (state : RoleModel) (resp : RoleRead),
       c.rolesGet state.projectId.valueString state.environmentId.valueString state.key.valueString = .ok resp →
       (roleResource.Read c state).outcome =
         match resp.description with
         | none => .goPanic
         | some d => .ok ⟨.value resp.id, .value resp.organizationId, .value resp.projectId,
                          .value resp.environmentId, .value resp.key, .value resp.name,
                          .value d, .null⟩)
    ∧ (∀ (plan : RoleModel) (resp : RoleRead),
       c.rolesUpdate plan.projectId.valueString plan.environmentId.valueString plan.key.valueString (roleResource.updateRequest plan) = .ok resp →
       (roleResource.Update c plan).outcome =
         match resp.description with
         | none => .goPanic
         | some d => .ok ⟨.value resp.id, .value resp.organizationId, .value resp.projectId,
                          .value resp.environmentId, .value resp.key, .value resp.name,
                          .value d, .null⟩) := by
  refine ⟨?_, ?_, ?_, ?_, ?_, ?_, ?_, ?_, ?_, ?_, ?_, ?_, ?_, ?_, ?_, ?_, ?_⟩
  · intro plan resp h; simp [environmentResource.Create, h]; cases resp.description <;> rfl
  · intro state resp h; simp [environmentResource.Read, h]; cases resp.description <;> rfl
  · intro plan resp h; simp [environmentResource.Update, h]; cases resp.description <;> rfl
  · intro plan resp h; simp [projectResource.Create, h]; cases resp.description <;> rfl
  · intro plan resp h; simp [projectResourceAlt.Create, h]; cases resp.description <;> rfl
  · intro state resp h; simp [projectResourceAlt.Read, h]; cases resp.description <;> rfl
  · intro plan resp h; simp [projectResourceAlt.Update, h]; cases resp.description <;> rfl
  · intro plan resp h; simp [tenantResource.Create, h]; cases resp.description <;> rfl
  · intro plan resp h; simp [resourceResource.Create, h]; cases resp.description <;> rfl
  · intro state resp h; simp [resourceResource.Read, h]; cases resp.description <;> rfl
  · intro plan resp h; simp [resourceResource.Update, h]; cases resp.description <;> rfl
  · intro plan resp h; simp [resourceActionResource.Create, h]; cases resp.description <;> rfl
  · intro state resp h; simp [resourceActionResource.Read, h]; cases resp.description <;> rfl
  · intro plan resp h; simp [resourceActionResource.Update, h]; cases resp.description <;> rfl
  · intro plan perms resp hperm h; simp [roleResource.Create, hperm, h]; cases resp.description <;> rfl
  · intro state resp h; simp [roleResource.Read, h]; cases resp.description <;> rfl
  · intro plan resp h; simp [roleResource.Update, h]; cases resp.description <;> rfl

/-- Prior environment state pointing at `p-uuid`/`env1`. -/
def envImportedState : EnvironmentModel :=
  ⟨.null, .null, .value "p-uuid", .value "env1", .null, .null⟩

/-- C5 witness: against a client that omits the description in every
response, each dereferencing operation panics on concrete inputs; and one
operation succeeds when the response does carry a description. -/
theorem nil_description_response_panics_witness :
    (environmentResource.Create noneDescClient envPlan).outcome = Outcome.goPanic
    ∧ (environmentResource.Read noneDescClient envPlan).outcome = Outcome.goPanic
    ∧ (environmentResource.Update noneDescClient envPlan).outcome = Outcome.goPanic
    ∧ (projectResource.Create noneDescClient projPlan).outcome = Outcome.goPanic
    ∧ (projectResourceAlt.Create noneDescClient projPlan).outcome = Outcome.goPanic
    ∧ (projectResourceAlt.Read noneDescClient projPlan).outcome = Outcome.goPanic
    ∧ (projectResourceAlt.Update noneDescClient projPlan).outcome = Outcome.goPanic
    ∧ (tenantResource.Create noneDescClient tenantPlan).outcome = Outcome.goPanic
    ∧ (resourceResource.Create noneDescClient resourcePlan).outcome = Outcome.goPanic
    ∧ (resourceResource.Read noneDescClient resourcePlan).outcome = Outcome.goPanic
    ∧ (resourceResource.Update noneDescClient resourcePlan).outcome = Outcome.goPanic
    ∧ (resourceActionResource.Create noneDescClient actionPlan).outcome = Outcome.goPanic
    ∧ (resourceActionResource.Read noneDescClient actionPlan).outcome = Outcome.goPanic
    ∧ (resourceActionResource.Update noneDescClient actionPlan).outcome = Outcome.goPanic
    ∧ (roleResource.Create noneDescClient rolePlan).outcome = Outcome.goPanic
    ∧ (roleResource.Read noneDescClient rolePlan).outcome = Outcome.goPanic
    ∧ (roleResource.Update noneDescClient rolePlan).outcome = Outcome.goPanic
    ∧ (environmentResource.Read importClient envImportedState).outcome =
        Outcome.ok ⟨.value "e-uuid", .value "org-1", .value "p-uuid", .value "env1",
                    .value "Env One", .value "e"⟩ :=
  ⟨(nil_description_response_panics noneDescClient).1 envPlan eNone rfl,
   (nil_description_response_panics noneDescClient).2.1 envPlan eNone rfl,
   (nil_description_response_panics noneDescClient).2.2.1 envPlan eNone rfl,
   (nil_description_response_panics noneDescClient).2.2.2.1 projPlan pNone rfl,
   (nil_description_response_panics noneDescClient).2.2.2.2.1 projPlan pNone rfl,
   (nil_description_response_panics noneDescClient).2.2.2.2.2.1 projPlan pNone rfl,
   (nil_description_response_panics noneDescClient).2.2.2.2.2.2.1 projPlan pNone rfl,
   (nil_description_response_panics noneDescClient).2.2.2.2.2.2.2.1 tenantPlan tNone rfl,
   (nil_description_response_panics noneDescClient).2.2.2.2.2.2.2.2.1 resourcePlan rNone rfl,
   (nil_description_response_panics noneDescClient).2.2.2.2.2.2.2.2.2.1 resourcePlan rNone rfl,
   (nil_description_response_panics noneDescClient).2.2.2.2.2.2.2.2.2.2.1 resourcePlan rNone rfl,
   (nil_description_response_panics noneDescClient).2.2.2.2.2.2.2.2.2.2.2.1 actionPlan raNone rfl,
   (nil_description_response_panics noneDescClient).2.2.2.2.2.2.2.2.2.2.2.2.1 actionPlan raNone rfl,
   (nil_description_response_panics noneDescClient).2.2.2.2.2.2.2.2.2.2.2.2.2.1 actionPlan raNone rfl,
   (nil_description_response_panics noneDescClient).2.2.2.2.2.2.2.2.2.2.2.2.2.2.1 rolePlan
     ["document:read"] roNone rfl rfl,
   (nil_description_response_panics noneDescClient).2.2.2.2.2.2.2.2.2.2.2.2.2.2.2.1 rolePlan roNone rfl,
   (nil_description_response_panics noneDescClient).2.2.2.2.2.2.2.2.2.2.2.2.2.2.2.2 rolePlan roNone rfl,
   (nil_description_response_panics importClient).2.1 envImportedState env1 rfl⟩

/-- C6: provider configuration resolves the API key with config-value
precedence over the `PERMIT_API_KEY` environment variable; a non-null
configured value wins regardless of the environment; configuration fails
(no client constructed) exactly when the configured value is unknown or
the effective resolved key is empty. -/
theorem configure_api_key_resolution (cfg : TFString) (env : String) :
    (∀ s, cfg = .value s → s ≠ "" → permitProvider.Configure cfg env = .ok s)
    ∧ (cfg = .null → env ≠ "" → permitProvider.Configure cfg env = .ok env)
    ∧ ((∃ d, permitProvider.Configure cfg env = .error d) ↔
        cfg = .unknown ∨ (match cfg with | .value s => s | _ => env) = "") := by
  refine ⟨?_, ?_, ?_⟩
  · rintro s rfl hs
    simp [permitProvider.Configure, TFString.isUnknown, TFString.isNull, TFString.valueString, hs]
  · rintro rfl henv
    simp [permitProvider.Configure, TFString.isUnknown, TFString.isNull, henv]
  · cases cfg with
    | null =>
      by_cases henv : env = "" <;>
        simp [permitProvider.Configure, TFString.isUnknown, TFString.isNull, henv]
    | unknown => simp [permitProvider.Configure, TFString.isUnknown]
    | value s =>
      by_cases hs : s = "" <;>
        simp [permitProvider.Configure, TFString.isUnknown, TFString.isNull,
              TFString.valueString, hs]

/-- C6 witness: a configured key overrides a set environment variable, the
environment variable is used when the config is null, and an empty
configured value fails even with the environment variable set. -/
theorem configure_api_key_resolution_witness :
    permitProvider.Configure (.value "cfg-key") "env-key" = .ok "cfg-key"
    ∧ permitProvider.Configure .null "env-key" = .ok "env-key"
    ∧ (∃ d, permitProvider.Configure (.value "") "env-key" = .error d)
    ∧ (∃ d, permitProvider.Configure .unknown "env-key" = .error d) :=
  ⟨(configure_api_key_resolution (.value "cfg-key") "env-key").1 "cfg-key" rfl (by decide),
   (configure_api_key_resolution .null "env-key").2.1 rfl (by decide),
   (configure_api_key_resolution (.value "") "env-key").2.2.mpr (Or.inr rfl),
   (configure_api_key_resolution .unknown "env-key").2.2.mpr (Or.inl rfl)⟩

/-- C9: Tenant Read and Tenant Update map the optional description through
the nil-safe generated getter, so a response with a nil description
pointer succeeds and writes an empty-string description into state. -/
theorem tenant_nil_description_mapped_to_empty (c : Client) :
    (∀ (state : TenantModel) (tenant : TenantRead),
       c.tenantsGet state.projectId.valueString state.environmentId.valueString
         state.key.valueString = .ok tenant →
       tenant.description = none →
       (tenantResource.Read c state).outcome =
         .ok ⟨.value tenant.id, .value tenant.organizationId, .value tenant.projectId,
              .value tenant.environmentId, .value tenant.key, .value tenant.name, .value ""⟩)
    ∧ (∀ (plan : TenantModel) (tenant : TenantRead),
       c.tenantsUpdate plan.projectId.valueString plan.environmentId.valueString
         plan.key.valueString (tenantResource.updateRequest plan) = .ok tenant →
       tenant.description = none →
       (tenantResource.Update c plan).outcome =
         .ok ⟨.value tenant.id, .value tenant.organizationId, .value tenant.projectId,
              .value tenant.environmentId, .value tenant.key, .value tenant.name, .value ""⟩) := by
  constructor
  · intro state tenant h hd
    simp [tenantResource.Read, h, TenantRead.getDescription, hd]
  · intro plan tenant h hd
    simp [tenantResource.Update, h, TenantRead.getDescription, hd]

/-- C9 witness: concrete Tenant Read and Update against a client returning
a nil description succeed with an empty-string description in state. -/
theorem tenant_nil_description_mapped_to_empty_witness :
    (tenantResource.Read noneDescClient tenantPlan).outcome =
      .ok ⟨.value "t-id", .value "org-id", .value "p-id", .value "e-id", .value "ten",
           .value "Ten", .value ""⟩
    ∧ (tenantResource.Update noneDescClient tenantPlan).outcome =
      .ok ⟨.value "t-id", .value "org-id", .value "p-id", .value "e-id", .value "ten",
           .value "Ten", .value ""⟩ :=
  ⟨(tenant_nil_description_mapped_to_empty noneDescClient).1 tenantPlan tNone rfl rfl,
   (tenant_nil_description_mapped_to_empty noneDescClient).2 tenantPlan tNone rfl rfl⟩

/-- C10: Role Update never transmits permissions — the update request
carries only name and conditional description with its permissions field
unset, regardless of the planned permissions set; and the state rebuilt
after a successful update has a null permissions attribute. -/
theorem role_update_omits_permissions (c : Client) (plan : RoleModel) :
    (roleResource.updateRequest plan).permissions = none
    ∧ (∀ s, roleResource.updateRequest {plan with permissions := s} =
        roleResource.updateRequest plan)
    ∧ (roleResource.Update c plan).calls =
        [.setContext plan.projectId.valueString plan.environmentId.valueString,
         .rolesUpdate plan.projectId.valueString plan.environmentId.valueString
           plan.key.valueString (roleResource.updateRequest plan)]
    ∧ (∀ (role : RoleRead) (d : String),
       c.rolesUpdate plan.projectId.valueString plan.environmentId.valueString
         plan.key.valueString (roleResource.updateRequest plan) = .ok role →
       role.description = some d →
       (roleResource.Update c plan).outcome =
         .ok ⟨.value role.id, .value role.organizationId, .value role.projectId,
              .value role.environmentId, .value role.key, .value role.name, .value d,
              .null⟩) := by
  refine ⟨rfl, fun s => rfl, ?_, ?_⟩
  · rcases h : c.rolesUpdate plan.projectId.valueString plan.environmentId.valueString
      plan.key.valueString (roleResource.updateRequest plan) with e | role
    · simp [roleResource.Update, h]
    · rcases hd : role.description with _ | d <;> simp [roleResource.Update, h, hd]
  · intro role d h hd
    simp [roleResource.Update, h, hd]

/-- C10 witness: a concrete plan whose permissions differ from the prior
state still yields an update request without permissions, and the state
written after the update has a null permissions set. -/
theorem role_update_omits_permissions_witness :
    (roleResource.updateRequest rolePlan).permissions = none
    ∧ (roleResource.Update c3Client rolePlan).outcome =
      .ok ⟨.value "r-id", .value "org-1", .value "p-id", .value "e-id", .value "admin",
           .value "Admin", .value "Admin role", .null⟩ :=
  ⟨(role_update_omits_permissions c3Client rolePlan).1,
   (role_update_omits_permissions c3Client rolePlan).2.2.2 c3Role "Admin role" rfl rfl⟩

/-- C7: whenever the remote client call of a lifecycle operation fails,
the operation yields exactly one error diagnostic whose detail is the
client's message verbatim and writes no state (the prior state stands);
this holds for Create/Read/Update/Delete of every entity kind (for the
resource_project.go project variant, Read and Update perform no remote
call at all, so only its Create and Delete can fail). -/
theorem client_error_single_diag_no_state (c : Client) :
    (∀ (plan : EnvironmentModel) (e : String),
       c.environmentsCreate plan.projectId.valueString (environmentResource.createRequest plan) = .error e →
       (environmentResource.Create c plan).outcome = .err ⟨"Unable to create environment", e⟩)
    ∧ (∀ (state : EnvironmentModel) (e : String),
       c.environmentsGet state.projectId.valueString state.key.valueString = .error e →
       (environmentResource.Read c state).outcome = .err ⟨"Unable to read environment", e⟩)
    ∧ (∀ (plan : EnvironmentModel) (e : String),
       c.environmentsUpdate plan.projectId.valueString plan.key.valueString (environmentResource.updateRequest plan) = .error e →
       (environmentResource.Update c plan).outcome = .err ⟨"Unable to update environment", e⟩)
    ∧ (∀ (state : EnvironmentModel) (e : String),
       c.environmentsDelete state.projectId.valueString state.key.valueString = .error e →
       (environmentResource.Delete c state).outcome = .err ⟨"Unable to delete environment", e⟩)
    ∧ (∀ (plan : ProjectModel) (e : String),
       c.projectsCreate (projectResource.createRequest plan) = .error e →
       (projectResource.Create c plan).outcome = .err ⟨"Unable to Create Project", e⟩)
    ∧ (∀ (state : ProjectModel) (e : String),
       c.projectsDelete state.key.valueString = .error e →
       (projectResource.Delete c state).outcome = .err ⟨"Unable to Delete Project", e⟩)
    ∧ (∀ (plan : ProjectModel) (e : String),
       c.projectsCreate (projectResourceAlt.createRequest plan) = .error e →
       (projectResourceAlt.Create c plan).outcome = .err ⟨"Unable to create project", e⟩)
    ∧ (∀ (state : ProjectModel) (e : String),
       c.projectsGet state.key.valueString = .error e →
       (projectResourceAlt.Read c state).outcome = .err ⟨"Unable to read project", e⟩)
    ∧ (∀ (plan : ProjectModel) (e : String),
       c.projectsUpdate plan.key.valueString (projectResourceAlt.updateRequest plan) = .error e →
       (projectResourceAlt.Update c plan).outcome = .err ⟨"Unable to update project", e⟩)
    ∧ (∀ (state : ProjectModel) (e : String),
       c.projectsDelete state.key.valueString = .error e →
       (projectResourceAlt.Delete c state).outcome = .err ⟨"Unable to delete project", e⟩)
    ∧ (∀ (plan : TenantModel) (e : String),
       c.tenantsCreate plan.projectId.valueString plan.environmentId.valueString (tenantResource.createRequest plan) = .error e →
       (tenantResource.Create c plan).outcome = .err ⟨"Unable to create tenant", e⟩)
    ∧ (∀ (state : TenantModel) (e : String),
       c.tenantsGet state.projectId.valueString state.environmentId.valueString state.key.valueString = .error e →
       (tenantResource.Read c state).outcome = .err ⟨"Unable to read tenant", e⟩)
    ∧ (∀ (plan : TenantModel) (e : String),
       c.tenantsUpdate plan.projectId.valueString plan.environmentId.valueString plan.key.valueString (tenantResource.updateRequest plan) = .error e →
       (tenantResource.Update c plan).outcome = .err ⟨"Unable to update tenant", e⟩)
    ∧ (∀ (state : TenantModel) (e : String),
       c.tenantsDelete state.projectId.valueString state.environmentId.valueString state.key.valueString = .error e →
       (tenantResource.Delete c state).outcome = .err ⟨"Unable to delete tenant", e⟩)
    ∧ (∀ (plan : ResourceModel) (e : String),
       c.resourcesCreate plan.projectId.valueString plan.environmentId.valueString (resourceResource.createRequest plan) = .error e →
       (resourceResource.Create c plan).outcome = .err ⟨"Unable to create resource", e⟩)
    ∧ (∀ (state : ResourceModel) (e : String),
       c.resourcesGet state.projectId.valueString state.environmentId.valueString state.key.valueString = .error e →
       (resourceResource.Read c state).outcome = .err ⟨"Unable to read resource", e⟩)
    ∧ (∀ (plan : ResourceModel) (e : String),
       c.resourcesUpdate plan.projectId.valueString plan.environmentId.valueString plan.key.valueString (resourceResource.updateRequest plan) = .error e →
       (resourceResource.Update c plan).outcome = .err ⟨"Unable to update resource", e⟩)
    ∧ (∀ (state : ResourceModel) (e : String),
       c.resourcesDelete state.projectId.valueString state.environmentId.valueString state.key.valueString = .error e →
       (resourceResource.Delete c state).outcome = .err ⟨"Unable to delete resource", e⟩)
    ∧ (∀ (plan : ResourceActionModel) (e : String),
       c.resourceActionsCreate plan.projectId.valueString plan.environmentId.valueString plan.resourceId.valueString (resourceActionResource.createRequest plan) = .error e →
       (resourceActionResource.Create c plan).outcome = .err ⟨"Unable to create resource action", e⟩)
    ∧ (∀ (state : ResourceActionModel) (e : String),
       c.resourceActionsGet state.projectId.valueString state.environmentId.valueString state.resourceId.valueString state.key.valueString = .error e →
       (resourceActionResource.Read c state).outcome = .err ⟨"Unable to read resource action", e⟩)
    ∧ (∀ (plan : ResourceActionModel) (e : String),
       c.resourceActionsUpdate plan.projectId.valueString plan.environmentId.valueString plan.resourceId.valueString plan.key.valueString (resourceActionResource.updateRequest plan) = .error e →
       (resourceActionResource.Update c plan).outcome = .err ⟨"Unable to update resource action", e⟩)
    ∧ (∀ (state : ResourceActionModel) (e : String),
       c.resourceActionsDelete state.projectId.valueString state.environmentId.valueString state.resourceId.valueString state.key.valueString = .error e →
       (resourceActionResource.Delete c state).outcome = .err ⟨"Unable to delete resource action", e⟩)
    ∧ (∀ (plan : RoleModel) (perms : List String) (e : String),
       plan.permissions = .value perms →
       c.rolesCreate plan.projectId.valueString plan.environmentId.valueString (roleResource.createRequest plan perms) = .error e →
       (roleResource.Create c plan).outcome = .err ⟨"Unable to create role", e⟩)
    ∧ (∀ (state : RoleModel) (e : String),
       c.rolesGet state.projectId.valueString state.environmentId.valueString state.key.valueString = .error e →
       (roleResource.Read c state).outcome = .err ⟨"Unable to read role", e⟩)
    ∧ (∀ (plan : RoleModel) (e : String),
       c.rolesUpdate plan.projectId.valueString plan.environmentId.valueString plan.key.valueString (roleResource.updateRequest plan) = .error e →
       (roleResource.Update c plan).outcome = .err ⟨"Unable to update role", e⟩)
    ∧ (∀ (state : RoleModel) (e : String),
       c.rolesDelete state.projectId.valueString state.environmentId.valueString state.key.valueString = .error e →
       (roleResource.Delete c state).outcome = .err ⟨"Unable to delete role", e⟩) := by
  refine ⟨?_, ?_, ?_, ?_, ?_, ?_, ?_, ?_, ?_, ?_, ?_, ?_, ?_, ?_, ?_, ?_, ?_, ?_, ?_, ?_, ?_,
    ?_, ?_, ?_, ?_, ?_⟩
  · intro plan e h; simp [environmentResource.Create, h]
  · intro state e h; simp [environmentResource.Read, h]
  · intro plan e h; simp [environmentResource.Update, h]
  · intro state e h; simp [environmentResource.Delete, h]
  · intro plan e h; simp [projectResource.Create, h]
  · intro state e h; simp [projectResource.Delete, h]
  · intro plan e h; simp [projectResourceAlt.Create, h]
  · intro state e h; simp [projectResourceAlt.Read, h]
  · intro plan e h; simp [projectResourceAlt.Update, h]
  · intro state e h; simp [projectResourceAlt.Delete, h]
  · intro plan e h; simp [tenantResource.Create, h]
  · intro state e h; simp [tenantResource.Read, h]
  · intro plan e h; simp [tenantResource.Update, h]
  · intro state e h; simp [tenantResource.Delete, h]
  · intro plan e h; simp [resourceResource.Create, h]
  · intro state e h; simp [resourceResource.Read, h]
  · intro plan e h; simp [resourceResource.Update, h]
  · intro state e h; simp [resourceResource.Delete, h]
  · intro plan e h; simp [resourceActionResource.Create, h]
  · intro state e h; simp [resourceActionResource.Read, h]
  · intro plan e h; simp [resourceActionResource.Update, h]
  · intro state e h; simp [resourceActionResource.Delete, h]
  · intro plan perms e hperm h; simp [roleResource.Create, hperm, h]
  · intro state e h; simp [roleResource.Read, h]
  · intro plan e h; simp [roleResource.Update, h]
  · intro state e h; simp [roleResource.Delete, h]

/-- C7 witness: all 26 failing operations evaluated against the
all-failing client, each surfacing its endpoint's message verbatim. -/
theorem client_error_single_diag_no_state_witness :
    (environmentResource.Create errClient envPlan).outcome =
      .err ⟨"Unable to create environment", "environment create failed"⟩
    ∧ (environmentResource.Read errClient envPlan).outcome =
      .err ⟨"Unable to read environment", "environment get failed"⟩
    ∧ (environmentResource.Update errClient envPlan).outcome =
      .err ⟨"Unable to update environment", "environment update failed"⟩
    ∧ (environmentResource.Delete errClient envPlan).outcome =
      .err ⟨"Unable to delete environment", "environment delete failed"⟩
    ∧ (projectResource.Create errClient projPlan).outcome =
      .err ⟨"Unable to Create Project", "project create failed"⟩
    ∧ (projectResource.Delete errClient projPlan).outcome =
      .err ⟨"Unable to Delete Project", "project delete failed"⟩
    ∧ (projectResourceAlt.Create errClient projPlan).outcome =
      .err ⟨"Unable to create project", "project create failed"⟩
    ∧ (projectResourceAlt.Read errClient projPlan).outcome =
      .err ⟨"Unable to read project", "project get failed"⟩
    ∧ (projectResourceAlt.Update errClient projPlan).outcome =
      .err ⟨"Unable to update project", "project update failed"⟩
    ∧ (projectResourceAlt.Delete errClient projPlan).outcome =
      .err ⟨"Unable to delete project", "project delete failed"⟩
    ∧ (tenantResource.Create errClient tenantPlan).outcome =
      .err ⟨"Unable to create tenant", "tenant create failed"⟩
    ∧ (tenantResource.Read errClient tenantPlan).outcome =
      .err ⟨"Unable to read tenant", "tenant get failed"⟩
    ∧ (tenantResource.Update errClient tenantPlan).outcome =
      .err ⟨"Unable to update tenant", "tenant update failed"⟩
    ∧ (tenantResource.Delete errClient tenantPlan).outcome =
      .err ⟨"Unable to delete tenant", "tenant delete failed"⟩
    ∧ (resourceResource.Create errClient resourcePlan).outcome =
      .err ⟨"Unable to create resource", "resource create failed"⟩
    ∧ (resourceResource.Read errClient resourcePlan).outcome =
      .err ⟨"Unable to read resource", "resource get failed"⟩
    ∧ (resourceResource.Update errClient resourcePlan).outcome =
      .err ⟨"Unable to update resource", "resource update failed"⟩
    ∧ (resourceResource.Delete errClient resourcePlan).outcome =
      .err ⟨"Unable to delete resource", "resource delete failed"⟩
    ∧ (resourceActionResource.Create errClient actionPlan).outcome =
      .err ⟨"Unable to create resource action", "resource action create failed"⟩
    ∧ (resourceActionResource.Read errClient actionPlan).outcome =
      .err ⟨"Unable to read resource action", "resource action get failed"⟩
    ∧ (resourceActionResource.Update errClient actionPlan).outcome =
      .err ⟨"Unable to update resource action", "resource action update failed"⟩
    ∧ (resourceActionResource.Delete errClient actionPlan).outcome =
      .err ⟨"Unable to delete resource action", "resource action delete failed"⟩
    ∧ (roleResource.Create errClient rolePlan).outcome =
      .err ⟨"Unable to create role", "role create failed"⟩
    ∧ (roleResource.Read errClient rolePlan).outcome =
      .err ⟨"Unable to read role", "role get failed"⟩
    ∧ (roleResource.Update errClient rolePlan).outcome =
      .err ⟨"Unable to update role", "role update failed"⟩
    ∧ (roleResource.Delete errClient rolePlan).outcome =
      .err ⟨"Unable to delete role", "role delete failed"⟩ := by
  obtain ⟨h1, h2, h3, h4, h5, h6, h7, h8, h9, h10, h11, h12, h13, h14, h15, h16, h17, h18,
    h19, h20, h21, h22, h23, h24, h25, h26⟩ := client_error_single_diag_no_state errClient
  exact ⟨h1 envPlan _ rfl, h2 envPlan _ rfl, h3 envPlan _ rfl, h4 envPlan _ rfl,
         h5 projPlan _ rfl, h6 projPlan _ rfl, h7 projPlan _ rfl, h8 projPlan _ rfl,
         h9 projPlan _ rfl, h10 projPlan _ rfl, h11 tenantPlan _ rfl, h12 tenantPlan _ rfl,
         h13 tenantPlan _ rfl, h14 tenantPlan _ rfl, h15 resourcePlan _ rfl,
         h16 resourcePlan _ rfl, h17 resourcePlan _ rfl, h18 resourcePlan _ rfl,
         h19 actionPlan _ rfl, h20 actionPlan _ rfl, h21 actionPlan _ rfl,
         h22 actionPlan _ rfl, h23 rolePlan ["document:read"] _ rfl rfl,
         h24 rolePlan _ rfl, h25 rolePlan _ rfl, h26 rolePlan _ rfl⟩

/-- C8: every outgoing create request carries the planned key and name and
every outgoing update request carries the name; both carry a description
exactly when the planned description's string value is non-empty, so a
null and an empty-string description produce identical requests; update
requests contain no key or foreign-key field (they are invariant under any
change to those plan fields); and these builders are exactly the requests
passed to the client calls. -/
theorem outgoing_request_shape (c : Client) :
    (∀ plan : EnvironmentModel,
       environmentResource.createRequest plan =
         { key := plan.key.valueString, name := plan.name.valueString,
           description := if plan.description.valueString ≠ "" then
             some plan.description.valueString else none }
       ∧ environmentResource.updateRequest plan =
         { name := some plan.name.valueString,
           description := if plan.description.valueString ≠ "" then
             some plan.description.valueString else none }
       ∧ environmentResource.createRequest {plan with description := .null} =
           environmentResource.createRequest {plan with description := .value ""}
       ∧ environmentResource.updateRequest {plan with description := .null} =
           environmentResource.updateRequest {plan with description := .value ""})
    ∧ (∀ (plan : EnvironmentModel) (k p : TFString),
       environmentResource.updateRequest {plan with key := k, projectId := p} =
         environmentResource.updateRequest plan)
    ∧ (∀ plan : EnvironmentModel,
       (environmentResource.Create c plan).calls =
         [.setContext plan.projectId.valueString "",
          .environmentsCreate plan.projectId.valueString (environmentResource.createRequest plan)]
       ∧ (environmentResource.Update c plan).calls =
         [.setContext plan.projectId.valueString "",
          .environmentsUpdate plan.projectId.valueString plan.key.valueString
            (environmentResource.updateRequest plan)])
    ∧ (∀ plan : ProjectModel,
       projectResource.createRequest plan =
         { key := plan.key.valueString, name := plan.name.valueString,
           description := if plan.description.valueString ≠ "" then
             some plan.description.valueString else none }
       ∧ projectResource.createRequest {plan with description := .null} =
           projectResource.createRequest {plan with description := .value ""})
    ∧ (∀ plan : ProjectModel,
       (projectResource.Create c plan).calls =
         [.projectsCreate (projectResource.createRequest plan)])
    ∧ (∀ plan : ProjectModel,
       projectResourceAlt.createRequest plan =
         { key := plan.key.valueString, name := plan.name.valueString,
           description := if plan.description.valueString ≠ "" then
             some plan.description.valueString else none }
       ∧ projectResourceAlt.updateRequest plan =
         { name := some plan.name.valueString,
           description := if plan.description.valueString ≠ "" then
             some plan.description.valueString else none }
       ∧ projectResourceAlt.createRequest {plan with description := .null} =
           projectResourceAlt.createRequest {plan with description := .value ""}
       ∧ projectResourceAlt.updateRequest {plan with description := .null} =
           projectResourceAlt.updateRequest {plan with description := .value ""})
    ∧ (∀ (plan : ProjectModel) (k : TFString),
       projectResourceAlt.updateRequest {plan with key := k} =
         projectResourceAlt.updateRequest plan)
    ∧ (∀ plan : ProjectModel,
       (projectResourceAlt.Create c plan).calls =
         [.projectsCreate (projectResourceAlt.createRequest plan)]
       ∧ (projectResourceAlt.Update c plan).calls =
         [.projectsUpdate plan.key.valueString (projectResourceAlt.updateRequest plan)])
    ∧ (∀ plan : TenantModel,
       tenantResource.createRequest plan =
         { key := plan.key.valueString, name := plan.name.valueString,
           description := if plan.description.valueString ≠ "" then
             some plan.description.valueString else none }
       ∧ tenantResource.updateRequest plan =
         { name := some plan.name.valueString,
           description := if plan.description.valueString ≠ "" then
             some plan.description.valueString else none }
       ∧ tenantResource.createRequest {plan with description := .null} =
           tenantResource.createRequest {plan with description := .value ""}
       ∧ tenantResource.updateRequest {plan with description := .null} =
           tenantResource.updateRequest {plan with description := .value ""})
    ∧ (∀ (plan : TenantModel) (k p e2 : TFString),
       tenantResource.updateRequest {plan with key := k, projectId := p, environmentId := e2} =
         tenantResource.updateRequest plan)
    ∧ (∀ plan : TenantModel,
       (tenantResource.Create c plan).calls =
         [.setContext plan.projectId.valueString plan.environmentId.valueString,
          .tenantsCreate plan.projectId.valueString plan.environmentId.valueString
            (tenantResource.createRequest plan)]
       ∧ (tenantResource.Update c plan).calls =
         [.setContext plan.projectId.valueString plan.environmentId.valueString,
          .tenantsUpdate plan.projectId.valueString plan.environmentId.valueString
            plan.key.valueString (tenantResource.updateRequest plan)])
    ∧ (∀ plan : ResourceModel,
       resourceResource.createRequest plan =
         { key := plan.key.valueString, name := plan.name.valueString, actions := [],
           description := if plan.description.valueString ≠ "" then
             some plan.description.valueString else none }
       ∧ resourceResource.updateRequest plan =
         { name := some plan.name.valueString,
           description := if plan.description.valueString ≠ "" then
             some plan.description.valueString else none }
       ∧ resourceResource.createRequest {plan with description := .null} =
           resourceResource.createRequest {plan with description := .value ""}
       ∧ resourceResource.updateRequest {plan with description := .null} =
           resourceResource.updateRequest {plan with description := .value ""})
    ∧ (∀ (plan : ResourceModel) (k p e2 : TFString),
       resourceResource.updateRequest {plan with key := k, projectId := p, environmentId := e2} =
         resourceResource.updateRequest plan)
    ∧ (∀ plan : ResourceModel,
       (resourceResource.Create c plan).calls =
         [.setContext plan.projectId.valueString plan.environmentId.valueString,
          .resourcesCreate plan.projectId.valueString plan.environmentId.valueString
            (resourceResource.createRequest plan)]
       ∧ (resourceResource.Update c plan).calls =
         [.setContext plan.projectId.valueString plan.environmentId.valueString,
          .resourcesUpdate plan.projectId.valueString plan.environmentId.valueString
            plan.key.valueString (resourceResource.updateRequest plan)])
    ∧ (∀ plan : ResourceActionModel,
       resourceActionResource.createRequest plan =
         { key := plan.key.valueString, name := plan.name.valueString,
           description := if plan.description.valueString ≠ "" then
             some plan.description.valueString else none }
       ∧ resourceActionResource.updateRequest plan =
         { name := some plan.name.valueString,
           description := if plan.description.valueString ≠ "" then
             some plan.description.valueString else none }
       ∧ resourceActionResource.createRequest {plan with description := .null} =
           resourceActionResource.createRequest {plan with description := .value ""}
       ∧ resourceActionResource.updateRequest {plan with description := .null} =
           resourceActionResource.updateRequest {plan with description := .value ""})
    ∧ (∀ (plan : ResourceActionModel) (k p e2 r : TFString),
       resourceActionResource.updateRequest
           {plan with key := k, projectId := p, environmentId := e2, resourceId := r} =
         resourceActionResource.updateRequest plan)
    ∧ (∀ plan : ResourceActionModel,
       (resourceActionResource.Create c plan).calls =
         [.setContext plan.projectId.valueString plan.environmentId.valueString,
          .resourceActionsCreate plan.projectId.valueString plan.environmentId.valueString
            plan.resourceId.valueString (resourceActionResource.createRequest plan)]
       ∧ (resourceActionResource.Update c plan).calls =
         [.setContext plan.projectId.valueString plan.environmentId.valueString,
          .resourceActionsUpdate plan.projectId.valueString plan.environmentId.valueString
            plan.resourceId.valueString plan.key.valueString
            (resourceActionResource.updateRequest plan)])
    ∧ (∀ (plan : RoleModel) (perms : List String),
       roleResource.createRequest plan perms =
         { key := plan.key.valueString, name := plan.name.valueString,
           description := if plan.description.valueString ≠ "" then
             some plan.description.valueString else none
           permissions := some perms }
       ∧ roleResource.createRequest {plan with description := .null} perms =
           roleResource.createRequest {plan with description := .value ""} perms)
    ∧ (∀ plan : RoleModel,
       roleResource.updateRequest plan =
         { name := some plan.name.valueString,
           description := if plan.description.valueString ≠ "" then
             some plan.description.valueString else none
           permissions := none }
       ∧ roleResource.updateRequest {plan with description := .null} =
           roleResource.updateRequest {plan with description := .value ""})
    ∧ (∀ (plan : RoleModel) (k p e2 : TFString) (s : TFSet),
       roleResource.updateRequest
           {plan with key := k, projectId := p, environmentId := e2, permissions := s} =
         roleResource.updateRequest plan)
    ∧ (∀ (plan : RoleModel) (perms : List String), plan.permissions = .value perms →
       (roleResource.Create c plan).calls =
         [.setContext plan.projectId.valueString plan.environmentId.valueString,
          .rolesCreate plan.projectId.valueString plan.environmentId.valueString
            (roleResource.createRequest plan perms)])
    ∧ (∀ plan : RoleModel,
       (roleResource.Update c plan).calls =
         [.setContext plan.projectId.valueString plan.environmentId.valueString,
          .rolesUpdate plan.projectId.valueString plan.environmentId.valueString
            plan.key.valueString (roleResource.updateRequest plan)]) := by
  refine ⟨fun plan => ⟨rfl, rfl, rfl, rfl⟩, fun plan k p => rfl, ?_,
          fun plan => ⟨rfl, rfl⟩, ?_,
          fun plan => ⟨rfl, rfl, rfl, rfl⟩, fun plan k => rfl, ?_,
          fun plan => ⟨rfl, rfl, rfl, rfl⟩, fun plan k p e2 => rfl, ?_,
          fun plan => ⟨rfl, rfl, rfl, rfl⟩, fun plan k p e2 => rfl, ?_,
          fun plan => ⟨rfl, rfl, rfl, rfl⟩, fun plan k p e2 r => rfl, ?_,
          fun plan perms => ⟨rfl, rfl⟩, fun plan => ⟨rfl, rfl⟩,
          fun plan k p e2 s => rfl, ?_, ?_⟩
  · intro plan
    constructor
    · rcases h : c.environmentsCreate plan.projectId.valueString
        (environmentResource.createRequest plan) with e | resp
      · simp [environmentResource.Create, h]
      · rcases hd : resp.description with _ | d <;> simp [environmentResource.Create, h, hd]
    · rcases h : c.environmentsUpdate plan.projectId.valueString plan.key.valueString
        (environmentResource.updateRequest plan) with e | resp
      · simp [environmentResource.Update, h]
      · rcases hd : resp.description with _ | d <;> simp [environmentResource.Update, h, hd]
  · intro plan
    rcases h : c.projectsCreate (projectResource.createRequest plan) with e | resp
    · simp [projectResource.Create, h]
    · rcases hd : resp.description with _ | d <;> simp [projectResource.Create, h, hd]
  · intro plan
    constructor
    · rcases h : c.projectsCreate (projectResourceAlt.createRequest plan) with e | resp
      · simp [projectResourceAlt.Create, h]
      · rcases hd : resp.description with _ | d <;> simp [projectResourceAlt.Create, h, hd]
    · rcases h : c.projectsUpdate plan.key.valueString
        (projectResourceAlt.updateRequest plan) with e | resp
      · simp [projectResourceAlt.Update, h]
      · rcases hd : resp.description with _ | d <;> simp [projectResourceAlt.Update, h, hd]
  · intro plan
    constructor
    · rcases h : c.tenantsCreate plan.projectId.valueString plan.environmentId.valueString
        (tenantResource.createRequest plan) with e | resp
      · simp [tenantResource.Create, h]
      · rcases hd : resp.description with _ | d <;> simp [tenantResource.Create, h, hd]
    · rcases h : c.tenantsUpdate plan.projectId.valueString plan.environmentId.valueString
        plan.key.valueString (tenantResource.updateRequest plan) with e | resp
      · simp [tenantResource.Update, h]
      · simp [tenantResource.Update, h]
  · intro plan
    constructor
    · rcases h : c.resourcesCreate plan.projectId.valueString plan.environmentId.valueString
        (resourceResource.createRequest plan) with e | resp
      · simp [resourceResource.Create, h]
      · rcases hd : resp.description with _ | d <;> simp [resourceResource.Create, h, hd]
    · rcases h : c.resourcesUpdate plan.projectId.valueString plan.environmentId.valueString
        plan.key.valueString (resourceResource.updateRequest plan) with e | resp
      · simp [resourceResource.Update, h]
      · rcases hd : resp.description with _ | d <;> simp [resourceResource.Update, h, hd]
  · intro plan
    constructor
    · rcases h : c.resourceActionsCreate plan.projectId.valueString
        plan.environmentId.valueString plan.resourceId.valueString
        (resourceActionResource.createRequest plan) with e | resp
      · simp [resourceActionResource.Create, h]
      · rcases hd : resp.description with _ | d <;>
          simp [resourceActionResource.Create, h, hd]
    · rcases h : c.resourceActionsUpdate plan.projectId.valueString
        plan.environmentId.valueString plan.resourceId.valueString plan.key.valueString
        (resourceActionResource.updateRequest plan) with e | resp
      · simp [resourceActionResource.Update, h]
      · rcases hd : resp.description with _ | d <;>
          simp [resourceActionResource.Update, h, hd]
  · intro plan perms hperm
    rcases h : c.rolesCreate plan.projectId.valueString plan.environmentId.valueString
      (roleResource.createRequest plan perms) with e | resp
    · simp [roleResource.Create, hperm, h]
    · rcases hd : resp.description with _ | d <;> simp [roleResource.Create, hperm, h, hd]
  · intro plan
    rcases h : c.rolesUpdate plan.projectId.valueString plan.environmentId.valueString
      plan.key.valueString (roleResource.updateRequest plan) with e | resp
    · simp [roleResource.Update, h]
    · rcases hd : resp.description with _ | d <;> simp [roleResource.Update, h, hd]

/-- C8 witness: the concrete role create call carries exactly the built
request; a null and an empty-string description yield the same concrete
environment create request; and a concrete update request ignores key and
foreign-key changes. -/
theorem outgoing_request_shape_witness :
    (roleResource.Create errClient rolePlan).calls =
      [.setContext "p-id" "e-id",
       .rolesCreate "p-id" "e-id" (roleResource.createRequest rolePlan ["document:read"])]
    ∧ environmentResource.createRequest ⟨.null, .null, .value "p", .value "env", .value "Env", .null⟩ =
        { key := "env", name := "Env", description := none }
    ∧ environmentResource.createRequest ⟨.null, .null, .value "p", .value "env", .value "Env", .value ""⟩ =
        { key := "env", name := "Env", description := none }
    ∧ environmentResource.updateRequest ⟨.null, .null, .value "other-p", .value "other-key", .value "Env", .null⟩ =
        environmentResource.updateRequest ⟨.null, .null, .value "p", .value "env", .value "Env", .null⟩ := by
  obtain ⟨g1, g2, g3, g4, g5, g6, g7, g8, g9, g10, g11, g12, g13, g14, g15, g16, g17, g18,
    g19, g20, g21, g22⟩ := outgoing_request_shape errClient
  exact ⟨g21 rolePlan ["document:read"] rfl,
         (g1 ⟨.null, .null, .value "p", .value "env", .value "Env", .null⟩).1,
         (g1 ⟨.null, .null, .value "p", .value "env", .value "Env", .value ""⟩).1,
         g2 ⟨.null, .null, .value "p", .value "env", .value "Env", .null⟩
           (.value "other-key") (.value "other-p")⟩
